import Mathlib

/-!
Verification of the APTrust exchange ingest pipeline against its
natural-language specification.

The development shallowly embeds the Go sources under `src/`:
pure functions become Lean functions, stateful worker code becomes
explicit state passing over small state structures, the external
services (registry, object store, queue broker, file system) become
explicit environment records of response functions, and side effects
that the claims talk about (uploads, deletes, requeues) are recorded
as explicit action traces.  Go panics and Go `error` returns are both
modelled with `Except`.  `time.Time` fields that the code only ever
compares against the zero value are modelled as `Bool` ("the timestamp
has been set").  Machine integers (`int64`) stay well inside their
range everywhere the embedded code computes with them, so they are
modelled as `Int`.
-/

set_option linter.unusedVariables false
set_option linter.unusedTactic false
set_option linter.unnecessarySeqFocus false

namespace Exchange

/-! ### Shared model of WorkSummary (models.WorkSummary)

The `models` package is not under `src/`.  Modelled from the spec:
`WorkSummary` tracks "attempted, attempt-number, started-at,
finished-at, error list, retry flag, fatal flag" (§3, IngestManifest);
`AddError` appends a formatted message, `HasErrors` reports a non-empty
error list, `ErrorIsFatal` is the fatal flag (see also the Result type
in src/unnamed/part_001, whose AddError appends to a string slice). -/
structure WorkSummary where
  errors : List String := []
  errorIsFatal : Bool := false
  deriving DecidableEq, Repr

def WorkSummary.addError (s : WorkSummary) (msg : String) : WorkSummary :=
  { s with errors := s.errors ++ [msg] }

def WorkSummary.setFatal (s : WorkSummary) : WorkSummary :=
  { s with errorIsFatal := true }

def WorkSummary.hasErrors (s : WorkSummary) : Bool :=
  !s.errors.isEmpty

/-- `summaryLE s t`: `t` extends `s` — it keeps every error of `s` and
never clears a fatal flag.  Every summary transformation the storer
performs respects this order. -/
def summaryLE (s t : WorkSummary) : Prop :=
  (∀ e ∈ s.errors, e ∈ t.errors) ∧ (s.errorIsFatal = true → t.errorIsFatal = true)

/-! ### C3: the S3 multipart upload ladder (src/network/s3_upload.go, Send) -/

/-- s3manager.MinUploadPartSize, the AWS SDK constant: 1024 * 1024 * 5 bytes. -/
def minUploadPartSize : Int := 1024 * 1024 * 5

/-- The aws-sdk-go default for s3manager Uploader concurrency
(s3manager.DefaultUploadConcurrency), left in place when Send does not
set it. -/
def defaultUploadConcurrency : Int := 5

/-- The part size S3Upload.Send sets on the AWS uploader for an upload of
`size` bytes (src/network/s3_upload.go lines 103-115). -/
def sendPartSize (size : Int) : Int :=
  if size < minUploadPartSize then
    minUploadPartSize
  else if size ≥ minUploadPartSize * 100 ∧ size < minUploadPartSize * 1000 then
    128 * 1024 * 1024
  else if size ≥ minUploadPartSize * 1000 ∧ size < minUploadPartSize * 10000 then
    512 * 1024 * 1024
  else
    1024 * 1024 * 1024

/-- The concurrency S3Upload.Send sets on the AWS uploader for an upload of
`size` bytes (src/network/s3_upload.go lines 103-115); the first branch
leaves the SDK default in place. -/
def sendConcurrency (size : Int) : Int :=
  if size < minUploadPartSize then
    defaultUploadConcurrency
  else if size ≥ minUploadPartSize * 100 ∧ size < minUploadPartSize * 1000 then
    2
  else if size ≥ minUploadPartSize * 1000 ∧ size < minUploadPartSize * 10000 then
    1
  else
    1

/-! ### C4: tag-spec verification (src/unnamed/part_002, verifyTagSpecs) -/

/-- config.REQUIRED / config.FORBIDDEN / config.OPTIONAL.  Modelled from the
spec: the `config` package is not under src/; §6 gives
presence ∈ \x7bREQUIRED, FORBIDDEN, OPTIONAL\x7d. -/
inductive Presence
  | required
  | forbidden
  | optionalTag
  deriving DecidableEq, Repr

structure BagTag where
  label : String
  value : String
  sourceFile : String
  deriving DecidableEq, Repr

structure TagSpec where
  presence : Presence
  emptyOK : Bool
  allowedValues : List String
  deriving DecidableEq, Repr

/-- Modelled from the spec: models.IntellectualObject.FindTag (the `models`
package is not under src/): the tags of the bag whose label equals
`tagName`; an absent tag yields the empty list. -/
def findTag (objTags : List BagTag) (tagName : String) : List BagTag :=
  objTags.filter (fun t => t.label == tagName)

/-- BagValidator.checkRequiredTag (src/unnamed/part_002 lines 133-150):
the errors it appends for one required tag.  The Go `tags == nil` test is
read as "the tag is absent" (empty find result). -/
def checkRequiredTag (tagName : String) (tags : List BagTag) (spec : TagSpec) :
    List String :=
  if tags.isEmpty then
    ["Required tag '" ++ tagName ++ "' is missing."]
  else if !spec.emptyOK ∧ !(tags.any (fun t => t.value ≠ "")) then
    ["Value for tag '" ++ tagName ++ "' is missing."]
  else
    []

/-- BagValidator.checkAllowedTagValue (src/unnamed/part_002 lines 152-168):
the nested loops accumulate whether any (allowed value, tag value) pair
matches after lower-casing and trimming, and remember the last tag value
seen, which names the offender in the error message. -/
def checkAllowedTagValue (tagName : String) (tags : List BagTag) (spec : TagSpec) :
    List String :=
  let scan := spec.allowedValues.foldl
    (fun (acc : Bool × String) value =>
      tags.foldl
        (fun (acc : Bool × String) tag =>
          let lcValue := value.toLower.trim
          let tagValue := tag.value.toLower.trim
          (acc.1 || (lcValue == tagValue), tagValue))
        acc)
    (false, "")
  if !scan.1 then
    ["Tag '" ++ tagName ++ "' has illegal value '" ++ scan.2 ++ "'."]
  else
    []

/-- BagValidator.verifyTagSpecs (src/unnamed/part_002 lines 95-110).  The
FORBIDDEN branch reads `tags[0].SourceFile` with no emptiness guard; the
Go runtime panic on an empty slice is modelled as `Except.error`.  The
result on success is the list of appended validation errors, in order. -/
def verifyTagSpecs (tagSpecs : List (String × TagSpec)) (objTags : List BagTag) :
    Except String (List String) :=
  match tagSpecs with
  | [] => .ok []
  | (tagName, spec) :: rest =>
    let tags := findTag objTags tagName
    if spec.presence = Presence.forbidden then
      match tags with
      | [] =>
        .error ("runtime error: index out of range [0] with length 0 " ++
          "(verifyTagSpecs, tag " ++ tagName ++ ")")
      | t :: _ =>
        (verifyTagSpecs rest objTags).map
          (fun es => ("Forbidden tag '" ++ tagName ++ "' found in file '" ++
            t.sourceFile ++ "'.") :: es)
    else
      let e1 := if spec.presence = Presence.required then
        checkRequiredTag tagName tags spec else []
      let e2 := if !tags.isEmpty ∧ !spec.allowedValues.isEmpty then
        checkAllowedTagValue tagName tags spec else []
      (verifyTagSpecs rest objTags).map (fun es => e1 ++ e2 ++ es)

/-! ### C5: checksum verification (src/unnamed/part_002, verifyChecksums) -/

/-- The GenericFile fields verifyChecksums touches.  The two VerifiedAt
`time.Time` fields are modelled as "has been set" booleans. -/
structure VGenericFile where
  originalPath : String
  ingestManifestMd5 : String
  ingestMd5 : String
  ingestManifestSha256 : String
  ingestSha256 : String
  ingestMd5VerifiedAt : Bool
  ingestSha256VerifiedAt : Bool
  deriving DecidableEq, Repr

def md5MismatchError (gf : VGenericFile) : String :=
  "Md5 digest for '" ++ gf.originalPath ++ "': manifest says '" ++
    gf.ingestManifestMd5 ++ "', file digest is '" ++ gf.ingestMd5 ++ "'"

def sha256MismatchError (gf : VGenericFile) : String :=
  "Sha256 digest for '" ++ gf.originalPath ++ "': manifest says '" ++
    gf.ingestManifestSha256 ++ "', file digest is '" ++ gf.ingestSha256 ++ "'"

/-- The Md5 half of the loop body of verifyChecksums
(src/unnamed/part_002 lines 115-121). -/
def checkMd5 (gf : VGenericFile) : Option String × VGenericFile :=
  if gf.ingestManifestMd5 ≠ "" ∧ gf.ingestManifestMd5 ≠ gf.ingestMd5 then
    (some (md5MismatchError gf), gf)
  else
    (none, { gf with ingestMd5VerifiedAt := true })

/-- The Sha256 half of the loop body of verifyChecksums
(src/unnamed/part_002 lines 123-129). -/
def checkSha256 (gf : VGenericFile) : Option String × VGenericFile :=
  if gf.ingestManifestSha256 ≠ "" ∧ gf.ingestManifestSha256 ≠ gf.ingestSha256 then
    (some (sha256MismatchError gf), gf)
  else
    (none, { gf with ingestSha256VerifiedAt := true })

/-- One iteration of the verifyChecksums loop: Md5 check then Sha256 check
on one file, yielding the errors appended for this file and the updated
file. -/
def checkFileDigests (gf : VGenericFile) : List String × VGenericFile :=
  let m := checkMd5 gf
  let s := checkSha256 m.2
  (m.1.toList ++ s.1.toList, s.2)

/-- BagValidator.verifyChecksums (src/unnamed/part_002 lines 112-131):
the validation errors appended to the validation summary, in order, and
the updated files. -/
def verifyChecksums (files : List VGenericFile) : List String × List VGenericFile :=
  match files with
  | [] => ([], [])
  | gf :: rest =>
    let here := checkFileDigests gf
    let there := verifyChecksums rest
    (here.1 ++ there.1, here.2 :: there.2)

/-! ### The store worker model (src/workers/apt_storer.go), for C1, C2, C6 -/

/-- Whether `pre` is a prefix of `l` (Go strings.HasPrefix over runes;
structurally recursive so concrete instances evaluate in the kernel). -/
def listIsPrefixOf : List Char → List Char → Bool
  | [], _ => true
  | _ :: _, [] => false
  | a :: as, b :: bs => a == b && listIsPrefixOf as bs

/-- Whether `sub` occurs in the list (Go strings.Contains over runes). -/
def listContainsSub (sub : List Char) : List Char → Bool
  | [] => sub.isEmpty
  | c :: rest => listIsPrefixOf sub (c :: rest) || listContainsSub sub rest

/-- Go strings.HasPrefix. -/
def goHasPrefixStr (s pre : String) : Bool :=
  listIsPrefixOf pre.data s.data

/-- Go strings.Contains. -/
def goContains (s sub : String) : Bool :=
  listContainsSub sub.data s.data

/-- Go strings.Split with a single-character separator, over the rune
list: all pieces, empty pieces included, never an empty result list. -/
def splitOnChar (sep : Char) : List Char → List (List Char)
  | [] => [[]]
  | c :: rest =>
    let r := splitOnChar sep rest
    if c = sep then [] :: r
    else
      match r with
      | [] => [[c]]
      | g :: gs => (c :: g) :: gs

/-- Go strings.Split(s, "/") (the only separator the embedded code
splits on). -/
def goSplitSlash (s : String) : List String :=
  (splitOnChar '/' s.data).map (fun l => { data := l })

/-- A hex digit, upper or lower case. -/
def isHexChar (c : Char) : Bool :=
  c.isDigit || (97 ≤ c.toNat && c.toNat ≤ 102) || (65 ≤ c.toNat && c.toNat ≤ 70)

/-- Modelled from the spec: util.LooksLikeUUID (its source is not under src/;
its behavior is fixed by the unit tests in src/unnamed/part_000 lines 87-106):
a canonical hyphenated 8-4-4-4-12 hex UUID, either case. -/
def looksLikeUUID (s : String) : Bool :=
  let cs := s.data
  cs.length == 36 &&
    (List.range 36).all (fun i =>
      if i = 8 ∨ i = 13 ∨ i = 18 ∨ i = 23 then cs.getD i ' ' == '-'
      else isHexChar (cs.getD i ' '))

/-- Modelled from the spec: util.LooksLikeJunkFile (source not under src/;
behavior fixed by the unit tests in src/unnamed/part_000 lines 177-184):
the path's base name starts with "._". -/
def looksLikeJunkFile (f : String) : Bool :=
  goHasPrefixStr ((goSplitSlash f).getLastD f) "._"

/-- Modelled from the spec: util.HasSavableName (source not under src/;
behavior fixed by the unit tests in src/unnamed/part_000 lines 158-175 and
§4.4 step 1 of the spec: bagit.txt, payload manifests, tag manifests and
junk files at the top level are not saved). -/
def hasSavableName (f : String) : Bool :=
  !(f == "." || f == ".." || f == "bagit.txt" || looksLikeJunkFile f ||
    goHasPrefixStr f "manifest-" || goHasPrefixStr f "tagmanifest-")

/-- MAX_UPLOAD_ATTEMPTS (src/workers/apt_storer.go line 25). -/
def maxUploadAttempts : Nat := 15

/-- The GenericFile fields the store worker reads and writes.  The `...At`
`time.Time` fields are modelled as "set" booleans (the code only ever asks
IsZero()).  OriginalPath(), a derived accessor in the models package (not
under src/), is carried as the field `originalPath`. -/
structure SGenericFile where
  identifier : String
  originalPath : String
  intellectualObjectIdentifier : String
  fileFormat : String
  size : Int
  id : Int
  ingestUUID : String
  ingestMd5 : String
  ingestSha256 : String
  ingestNeedsSave : Bool
  ingestPreviousVersionExists : Bool
  ingestStoredAt : Bool
  ingestStorageURL : String
  ingestReplicatedAt : Bool
  ingestReplicationURL : String
  uri : String
  deriving DecidableEq, Repr

/-- The models.Checksum fields the storer reads. -/
structure RChecksum where
  genericFileId : Int
  digest : String
  deriving DecidableEq, Repr

/-- The registry GenericFile record fields getUuidOfExistingFile reads. -/
structure PharosGenericFile where
  uri : String
  deriving DecidableEq, Repr

/-- What uploader.Send leaves on the S3Upload object: ErrorMessage and
Response.Location. -/
structure SendOutcome where
  errorMessage : String
  location : String
  deriving DecidableEq, Repr

/-- The configuration fields the storer reads.  s3LargeFileSize stands for
constants.S3LargeFileSize, whose value is not under src/. -/
structure StorerConfig where
  apTrustS3Region : String
  apTrustGlacierRegion : String
  preservationBucket : String
  replicationBucket : String
  tarDirectory : String
  s3LargeFileSize : Int

/-- The external world as the storer consults it: the registry (Pharos)
responses, the tar-file reader, the large-file temp materialisation, the
outcome of each Send and the object-store listing.  The listing is indexed
by the attempt number (S3 state changes over time) and by the region,
bucket and prefix the code passes, and returns the size of the first
listed object, if any. -/
structure StorerEnv where
  checksumList : String → Except String (Option RChecksum)
  genericFileGet : String → Except String PharosGenericFile
  getReadCloser : String → Except String Unit
  getFileReader : String → Except String Unit
  sendOutcome : String → Nat → SendOutcome
  listObjects : Nat → String → String → String → Option Int

/-- An effect on the object store: one uploader.Send call, with the
destination name, the bucket, the S3 key and the byte count sent. -/
inductive UploadAction
  | send (sendWhere bucket key : String) (size : Int)
  deriving DecidableEq, Repr

def UploadAction.key : UploadAction → String
  | .send _ _ k _ => k

/-- The per-file state a saveFile run threads: the GenericFile, the
StorageSummary's StoreResult and the trace of store effects. -/
structure StoreOutcome where
  gf : SGenericFile
  summary : WorkSummary
  actions : List UploadAction
  deriving DecidableEq, Repr

/-- APTStorer.getExistingSha256 (src/workers/apt_storer.go lines 362-379):
ask Pharos for the newest sha256 checksum of the identifier. -/
def getExistingSha256 (env : StorerEnv) (gfIdentifier : String) :
    Except String (Option RChecksum) :=
  env.checksumList gfIdentifier

/-- APTStorer.getUuidOfExistingFile (src/workers/apt_storer.go lines
385-403): the last component of the existing registry record's URI, which
must look like a UUID. -/
def getUuidOfExistingFile (env : StorerEnv) (gfIdentifier : String) :
    Except String String :=
  match env.genericFileGet gfIdentifier with
  | .error e => .error e
  | .ok existingGenericFile =>
    if !looksLikeUUID ((goSplitSlash existingGenericFile.uri).getLastD "") then
      .error ("Could not extract UUID from URI " ++ existingGenericFile.uri)
    else
      .ok ((goSplitSlash existingGenericFile.uri).getLastD "")

/-- APTStorer.changedSincePreviousVersion (src/workers/apt_storer.go lines
313-355): resolve the prior version's UUID (fatal error when that fails),
point IngestUUID at it, and clear IngestNeedsSave when the prior sha256
equals the newly computed one. -/
def changedSincePreviousVersion (env : StorerEnv) (o : StoreOutcome)
    (existingSha256 : RChecksum) : StoreOutcome :=
  let gf := o.gf
  match getUuidOfExistingFile env gf.identifier with
  | .error e =>
    { o with summary := (o.summary.addError
        ("Cannot find existing UUID for " ++ gf.identifier ++ ": " ++ e)).setFatal }
  | .ok uuid =>
    if uuid = "" then
      { o with summary := (o.summary.addError
          ("Cannot find existing UUID for " ++ gf.identifier ++ ".")).setFatal }
    else
      let gf := { gf with ingestUUID := uuid }
      if existingSha256.digest = gf.ingestSha256 then
        { o with gf := { gf with ingestNeedsSave := false } }
      else
        { o with gf := gf }

/-- Modelled from the spec: models.GenericFile.InstitutionIdentifier (the
models package is not under src/): the institution component of
`institution/bag-name/path` (§3). -/
def institutionIdentifier (identifier : String) : Except String String :=
  match goSplitSlash identifier with
  | inst :: _ :: _ => .ok inst
  | _ => .error ("GenericFile identifier " ++ identifier ++
      " is missing institution prefix")

/-- The S3Upload fields the storer model needs (src/network/s3_upload.go).
Metadata is an association list; AddMetadata appends, and the five keys
initUploader adds are distinct, so the first match is the map entry. -/
structure S3UploadModel where
  region : String
  bucket : String
  key : String
  contentType : String
  metadata : List (String × String)
  deriving DecidableEq, Repr

def addMetadata (u : S3UploadModel) (k v : String) : S3UploadModel :=
  { u with metadata := u.metadata ++ [(k, v)] }

def metadataLookup (md : List (String × String)) (k : String) : Option String :=
  (md.find? (fun p => p.1 == k)).map Prod.snd

/-- What initUploader returns: the uploader (nil on an unknown destination)
plus the errors it adds to the StoreResult and whether it marks them
fatal. -/
structure InitUploaderResult where
  uploader : Option S3UploadModel
  errors : List String
  fatal : Bool
  deriving Repr

/-- APTStorer.initUploader (src/workers/apt_storer.go lines 654-689):
select region and bucket by destination, build the uploader keyed by
IngestUUID, and attach the five metadata entries.  An unresolvable
institution adds a non-fatal error and stores institution as "". -/
def initUploader (cfg : StorerConfig) (gf : SGenericFile) (sendWhere : String) :
    InitUploaderResult :=
  if sendWhere ≠ "s3" ∧ sendWhere ≠ "glacier" then
    { uploader := none,
      errors := ["Cannot save " ++ gf.identifier ++ " to " ++ sendWhere ++
        " because storer doesn't know where %!s(MISSING) is"],
      fatal := true }
  else
    let region := if sendWhere = "s3" then cfg.apTrustS3Region
      else cfg.apTrustGlacierRegion
    let bucket := if sendWhere = "s3" then cfg.preservationBucket
      else cfg.replicationBucket
    let base : S3UploadModel :=
      { region := region, bucket := bucket, key := gf.ingestUUID,
        contentType := gf.fileFormat, metadata := [] }
    let instPair := match institutionIdentifier gf.identifier with
      | .ok inst => (inst, ([] : List String))
      | .error e => ("", ["Error setting institution in S3 metadata: " ++ e ++
          ". Storing without institution tag."])
    let u := addMetadata (addMetadata (addMetadata (addMetadata (addMetadata
      base "institution" instPair.1)
      "bag" gf.intellectualObjectIdentifier)
      "bagpath" gf.originalPath)
      "md5" gf.ingestMd5)
      "sha256" gf.ingestSha256
    { uploader := some u, errors := instPair.2, fatal := false }

def requiredMetadataKeys : List String :=
  ["institution", "bag", "bagpath", "md5", "sha256"]

def missingKeyError (key : String) : String :=
  "S3Upload is missing required metadata key " ++ key

/-- A metadata value that assertRequiredMetadata treats as absent:
no entry (nil pointer) or the empty string. -/
def metadataMissing (u : S3UploadModel) (key : String) : Bool :=
  match metadataLookup u.metadata key with
  | none => true
  | some v => v == ""

structure MetadataCheck where
  errors : List String
  fatal : Bool
  allKeysPresent : Bool
  deriving DecidableEq, Repr

/-- The fold inside assertRequiredMetadata, one step per required key. -/
def assertRequiredMetadataAux (u : S3UploadModel) (keys : List String)
    (acc : MetadataCheck) : MetadataCheck :=
  match keys with
  | [] => acc
  | key :: rest =>
    let acc := if metadataMissing u key then
        { errors := acc.errors ++ [missingKeyError key], fatal := true,
          allKeysPresent := false }
      else acc
    assertRequiredMetadataAux u rest acc

/-- APTStorer.assertRequiredMetadata (src/workers/apt_storer.go lines
720-733): every one of the five keys must be present with a non-empty
value; each miss adds an error and marks the result fatal. -/
def assertRequiredMetadata (u : S3UploadModel) : MetadataCheck :=
  assertRequiredMetadataAux u requiredMetadataKeys
    { errors := [], fatal := false, allKeysPresent := true }

/-- APTStorer.getTempFilePath (src/workers/apt_storer.go lines 615-617). -/
def getTempFilePath (cfg : StorerConfig) (gf : SGenericFile) : String :=
  cfg.tarDirectory ++ "/tmp/" ++ gf.ingestUUID

/-- APTStorer.markFileAsStored (src/workers/apt_storer.go lines 735-761).
The PREMIS-event datetime updates are elided: the event list is not part
of any embedded claim. -/
def markFileAsStored (gf : SGenericFile) (sendWhere storageUrl : String) :
    SGenericFile :=
  if sendWhere = "s3" then
    { gf with
      ingestStoredAt := true, ingestStorageURL := storageUrl,
      uri := storageUrl }
  else if sendWhere = "glacier" then
    { gf with ingestReplicatedAt := true, ingestReplicationURL := storageUrl }
  else
    gf

/-- APTStorer.getS3FileDetail (src/workers/apt_storer.go lines 764-775):
list by the file UUID.  As in the source, the client is always built on
Config.APTrustS3Region and Config.PreservationBucket, whatever the upload
destination was. -/
def getS3FileDetail (cfg : StorerConfig) (env : StorerEnv) (attempt : Nat)
    (fileUUID : String) : Option Int :=
  env.listObjects attempt cfg.apTrustS3Region cfg.preservationBucket fileUUID

def s3ReturnedNothingError (sendWhere : String) (gf : SGenericFile) : String :=
  sendWhere ++ " returned nothing for " ++ gf.ingestUUID ++ " (" ++
    gf.identifier ++ ")."

def s3WrongSizeError (sendWhere : String) (gf : SGenericFile) : String :=
  sendWhere ++ " returned size %d for " ++ gf.ingestUUID ++ " (" ++
    gf.identifier ++ "), should be %d."

/-- APTStorer.doUpload (src/workers/apt_storer.go lines 427-512): build the
uploader, assert the metadata, obtain a reader (a disk temp file for large
files), Send, then re-list by UUID and compare sizes.  Verification or
uploader errors are only added to the StoreResult on the last attempt;
earlier attempts log warnings only. -/
def doUpload (cfg : StorerConfig) (env : StorerEnv) (o : StoreOutcome)
    (sendWhere : String) (attemptNumber : Nat) : StoreOutcome :=
  let gf := o.gf
  let ir := initUploader cfg gf sendWhere
  let summary := ir.errors.foldl WorkSummary.addError o.summary
  let summary := if ir.fatal then summary.setFatal else summary
  match ir.uploader with
  | none =>
    { o with summary := summary.addError "S3 uploader is nil. Cannot proceed." }
  | some uploader =>
    let mc := assertRequiredMetadata uploader
    if !mc.allKeysPresent then
      let summary := mc.errors.foldl WorkSummary.addError summary
      { o with summary := if mc.fatal then summary.setFatal else summary }
    else
      match env.getReadCloser gf.identifier with
      | .error e => { o with summary := summary.addError e }
      | .ok _ =>
        let largeFileProblem :=
          if gf.size > cfg.s3LargeFileSize then
            match env.getFileReader gf.identifier with
            | .error e => some ("Error copying '" ++ gf.identifier ++
                "' from tarfile to filesystem at '" ++ getTempFilePath cfg gf ++
                "' for large file upload: " ++ e)
            | .ok _ => none
          else none
        match largeFileProblem with
        | some e => { o with summary := summary.addError e }
        | none =>
          let out := env.sendOutcome sendWhere attemptNumber
          let actions := o.actions ++
            [UploadAction.send sendWhere uploader.bucket gf.ingestUUID gf.size]
          let s3Obj := getS3FileDetail cfg env attemptNumber gf.ingestUUID
          let summary := match s3Obj with
            | none =>
              if attemptNumber = maxUploadAttempts then
                summary.addError (s3ReturnedNothingError sendWhere gf)
              else summary
            | some sz =>
              if sz ≠ gf.size then
                (if attemptNumber = maxUploadAttempts then
                  summary.addError (s3WrongSizeError sendWhere gf)
                else summary)
              else summary
          let uploadSucceeded :=
            s3Obj = some gf.size ∧ out.errorMessage = ""
          if uploadSucceeded then
            { gf := markFileAsStored gf sendWhere out.location,
              summary := summary, actions := actions }
          else if out.errorMessage ≠ "" ∧ attemptNumber = maxUploadAttempts then
            { gf := gf, summary := summary.addError out.errorMessage,
              actions := actions }
          else
            { gf := gf, summary := summary, actions := actions }

/-- The verification error doUpload records on the final attempt, chosen
by what the preservation-bucket listing returned then. -/
def attempt15Error (cfg : StorerConfig) (env : StorerEnv) (sendWhere : String)
    (gf : SGenericFile) : String :=
  match getS3FileDetail cfg env maxUploadAttempts gf.ingestUUID with
  | none => s3ReturnedNothingError sendWhere gf
  | some _ => s3WrongSizeError sendWhere gf

/-- The loop break condition in copyToLongTermStorage: the destination's
stored timestamp is set. -/
def storedForDest (gf : SGenericFile) (sendWhere : String) : Bool :=
  (sendWhere == "s3" && gf.ingestStoredAt) ||
    (sendWhere == "glacier" && gf.ingestReplicatedAt)

/-- The attempt loop of copyToLongTermStorage (src/workers/apt_storer.go
lines 416-424): try doUpload with attempt numbers counting up from
`attempt`, at most `fuel` more times, stopping early once the destination
timestamp is set. -/
def uploadAttempts (cfg : StorerConfig) (env : StorerEnv) (sendWhere : String) :
    Nat → Nat → StoreOutcome → StoreOutcome
  | 0, _, o => o
  | fuel + 1, attempt, o =>
    let o1 := doUpload cfg env o sendWhere attempt
    if storedForDest o1.gf sendWhere then o1
    else uploadAttempts cfg env sendWhere fuel (attempt + 1) o1

/-- APTStorer.copyToLongTermStorage (src/workers/apt_storer.go lines
406-425): refuse (fatally) when IngestUUID does not look like a UUID,
otherwise run up to MAX_UPLOAD_ATTEMPTS doUpload attempts. -/
def copyToLongTermStorage (cfg : StorerConfig) (env : StorerEnv)
    (o : StoreOutcome) (sendWhere : String) : StoreOutcome :=
  if !looksLikeUUID o.gf.ingestUUID then
    { o with summary := (o.summary.addError
        ("Cannot save " ++ o.gf.identifier ++ " to S3/Glacier because " ++
          "GenericFile.IngestUUID (" ++ o.gf.ingestUUID ++
          ") is missing or invalid")).setFatal }
  else
    uploadAttempts cfg env sendWhere maxUploadAttempts 1 o

/-- The second half of saveFile (src/workers/apt_storer.go lines 283-300):
copy to S3 and Glacier when the file still needs saving and the
respective destination timestamp or URL is unset.  (The temp-file cleanup
and the BoltDB write that follow touch no claimed state.) -/
def saveFilePhase2 (cfg : StorerConfig) (env : StorerEnv) (o : StoreOutcome) :
    StoreOutcome :=
  if o.gf.ingestNeedsSave then
    let o1 := if !o.gf.ingestStoredAt ∨ o.gf.ingestStorageURL = "" then
        copyToLongTermStorage cfg env o "s3"
      else o
    if !o1.gf.ingestReplicatedAt ∨ o1.gf.ingestReplicationURL = "" then
      copyToLongTermStorage cfg env o1 "glacier"
    else o1
  else
    o

/-- APTStorer.saveFile (src/workers/apt_storer.go lines 261-307): clear
needs-save for unsavable names; otherwise look up a prior sha256 in the
registry (an error there returns early), record the prior version and run
changedSincePreviousVersion when one exists; then upload whatever still
needs saving. -/
def saveFile (cfg : StorerConfig) (env : StorerEnv) (gf : SGenericFile) :
    StoreOutcome :=
  let o0 : StoreOutcome := { gf := gf, summary := {}, actions := [] }
  if !hasSavableName gf.originalPath then
    saveFilePhase2 cfg env { o0 with gf := { gf with ingestNeedsSave := false } }
  else
    match getExistingSha256 env gf.identifier with
    | .error e => { o0 with summary := o0.summary.addError e }
    | .ok none => saveFilePhase2 cfg env o0
    | .ok (some existingSha256) =>
      let gf1 := { gf with
        ingestPreviousVersionExists := true,
        id := existingSha256.genericFileId }
      saveFilePhase2 cfg env
        (changedSincePreviousVersion env { o0 with gf := gf1 } existingSha256)

/-! ### The record worker model (src/workers/apt_recorder.go), for C7, C8 -/

/-- GENERIC_FILE_BATCH_SIZE (src/workers/apt_recorder.go line 19). -/
def genericFileBatchSize : Nat := 100

/-- The GenericFile fields the record worker's batching logic reads. -/
structure RGenericFile where
  identifier : String
  id : Int
  intellectualObjectId : Int
  ingestNeedsSave : Bool
  ingestPreviousVersionExists : Bool
  deriving DecidableEq, Repr

/-- A GenericFile row as the registry returns it: the fields MergeAttributes
copies back that the claims mention (the registry-assigned id). -/
structure SavedFile where
  identifier : String
  id : Int
  deriving DecidableEq, Repr

/-- A batch-POST response: a possible transport/HTTP error plus the file
rows the registry did manage to create. -/
structure BatchResponse where
  error : Option String
  files : List SavedFile

/-- The registry as the record worker consults it. -/
structure RecorderEnv where
  saveBatch : List RGenericFile → BatchResponse
  saveSingle : RGenericFile → Except String SavedFile

/-- Registry traffic the record worker emits: one batch POST naming the
posted identifiers, or one PUT per existing file. -/
inductive RecAction
  | batchPost (identifiers : List String)
  | putFile (identifier : String)
  deriving DecidableEq, Repr

/-- Modelled from the spec: models.GenericFile.MergeAttributes (the models
package is not under src/): merge the registry-assigned attributes —
of which the claims mention the id — back into the in-memory file
(child checksum/event ids elided). -/
def mergeAttributes (gf : RGenericFile) (saved : SavedFile) : RGenericFile :=
  { gf with id := saved.id }

def missingIdError (gf : RGenericFile) : String :=
  "GenericFile " ++ gf.identifier ++ " has a previous version, but its Id is missing."

def notFoundInBatchError (identifier : String) : String :=
  "After save, could not find file '" ++ identifier ++ "' in batch."

def withObjId (objId : Int) (gf : RGenericFile) : RGenericFile :=
  { gf with intellectualObjectId := objId }

/-- The claim's "new file" test: needs saving, no prior version, registry
id zero — the membership test for the batch POST. -/
def isNewFile (gf : RGenericFile) : Bool :=
  gf.ingestNeedsSave && !gf.ingestPreviousVersionExists && gf.id == 0

/-- The claim's "existing file" test: needs saving, prior version found,
registry id known — the membership test for the individual PUTs. -/
def isExistingFile (gf : RGenericFile) : Bool :=
  gf.ingestNeedsSave && gf.ingestPreviousVersionExists && decide (gf.id > 0)

/-- A file with a prior version whose id is missing: logged as an error. -/
def isMissingIdFile (gf : RGenericFile) : Bool :=
  gf.ingestNeedsSave && gf.ingestPreviousVersionExists && decide (¬ gf.id > 0)

/-- What the partitioning loop of saveAllPharosData accumulates. -/
structure BatchPartition where
  newFiles : List RGenericFile
  existingFiles : List RGenericFile
  errors : List String
  deriving DecidableEq, Repr

/-- One iteration of the file loop in saveAllPharosData
(src/workers/apt_recorder.go lines 191-213): set the object id, skip
files that need no save, route files with a prior version and a known id
to the existing list, flag a prior version with a missing id as an error,
and route id-zero first-time files to the new list.  (The checksum/event
building steps touch no claimed state and are elided.) -/
def partitionStep (objId : Int) (acc : BatchPartition) (gf0 : RGenericFile) :
    BatchPartition :=
  let gf := withObjId objId gf0
  if gf.ingestNeedsSave = false then acc
  else if gf.ingestPreviousVersionExists then
    if gf.id > 0 then { acc with existingFiles := acc.existingFiles ++ [gf] }
    else { acc with errors := acc.errors ++ [missingIdError gf] }
  else if gf.id = 0 then { acc with newFiles := acc.newFiles ++ [gf] }
  else acc

def partitionBatch (objId : Int) (batch : List RGenericFile) : BatchPartition :=
  batch.foldl (partitionStep objId) { newFiles := [], existingFiles := [], errors := [] }

/-- The merge loop of createGenericFiles: every response row updates the
in-memory file with the same identifier. -/
def mergeResponse (files : List RGenericFile) (resp : List SavedFile) :
    List RGenericFile :=
  resp.foldl
    (fun acc saved => acc.map (fun gf =>
      if gf.identifier == saved.identifier then mergeAttributes gf saved else gf))
    files

/-- The errors the merge loop records for response rows that match no file
in the posted batch. -/
def responseNotFoundErrors (files : List RGenericFile) (resp : List SavedFile) :
    List String :=
  (resp.filter (fun s => !files.any (fun gf => gf.identifier == s.identifier))).map
    (fun s => notFoundInBatchError s.identifier)

/-- APTRecorder.createGenericFiles (src/workers/apt_recorder.go lines
278-313): nothing happens for an empty list; otherwise one batch POST, the
response error recorded if any, and — error or not — every returned row
merged back into the in-memory files. -/
def createGenericFiles (env : RecorderEnv) (files : List RGenericFile) :
    List RecAction × List String × List RGenericFile :=
  if files.isEmpty then ([], [], files)
  else
    let resp := env.saveBatch files
    let errs := match resp.error with
      | some e => [e]
      | none => []
    ([RecAction.batchPost (files.map (fun gf => gf.identifier))],
     errs ++ responseNotFoundErrors files resp.files,
     mergeResponse files resp.files)

/-- APTRecorder.updateGenericFiles (src/workers/apt_recorder.go lines
316-330): one individual PUT per existing file; a failed PUT records an
error and moves on.  (PropagateIdsToChildren touches no claimed state.) -/
def updateStep (env : RecorderEnv) (acc : List RecAction × List String)
    (gf : RGenericFile) : List RecAction × List String :=
  match env.saveSingle gf with
  | .error e => (acc.1 ++ [RecAction.putFile gf.identifier],
      acc.2 ++ ["Error updating '" ++ gf.identifier ++ "': " ++ e])
  | .ok _ => (acc.1 ++ [RecAction.putFile gf.identifier], acc.2)

def updateGenericFiles (env : RecorderEnv) (files : List RGenericFile) :
    List RecAction × List String :=
  files.foldl (updateStep env) ([], [])

/-- One pass of the batch body of saveAllPharosData (partition, batch POST
of the new files, individual PUTs of the existing files); returns the
registry actions, the recorded errors, the merged new files and the
existing files.  (The BoltDB write-back touches no claimed state.) -/
def processBatch (env : RecorderEnv) (objId : Int) (batch : List RGenericFile) :
    List RecAction × List String × List RGenericFile × List RGenericFile :=
  let p := partitionBatch objId batch
  let c := createGenericFiles env p.newFiles
  let u := updateGenericFiles env p.existingFiles
  (c.1 ++ u.1, p.errors ++ c.2.1 ++ u.2, c.2.2, p.existingFiles)

/-- The batch loop of saveAllPharosData (src/workers/apt_recorder.go lines
186-244): fetch batches of GENERIC_FILE_BATCH_SIZE until a short batch
ends the loop. -/
def saveAllGenericFiles (env : RecorderEnv) (objId : Int)
    (files : List RGenericFile) : List RecAction × List String :=
  let r := processBatch env objId (files.take genericFileBatchSize)
  if h : (files.take genericFileBatchSize).length < genericFileBatchSize then
    (r.1, r.2.1)
  else
    let rest := saveAllGenericFiles env objId (files.drop genericFileBatchSize)
    (r.1 ++ rest.1, r.2.1 ++ rest.2)
termination_by files.length
decreasing_by
  simp only [List.length_take, List.length_drop, not_lt, le_min_iff,
    genericFileBatchSize] at h ⊢
  omega

/-- The observable flags recorderCleanup branches on.  The manifest- and
summary-level HasErrors predicates live in the models package (not under
src/) and are carried as booleans; objLoaded is whether the staging DB
yielded the IntellectualObject. -/
structure RecorderFlags where
  manifestHasFatalErrors : Bool
  manifestHasErrors : Bool
  recordResultHasErrors : Bool
  attemptNumber : Int
  maxAttempts : Int
  deleteOnSuccess : Bool
  integrationTestEnv : Bool
  objLoaded : Bool
  s3DeleteError : String
  deriving DecidableEq, Repr

/-- The side effects of the record worker's cleanup stage. -/
inductive CleanupAction
  | markFailed
  | requeue
  | markStartedCleanup
  | deleteStagingBag
  | deleteStagingDB
  | deleteFromReceiving (bucket key : String)
  | setDeletedFromReceivingTimestamp
  | markSucceeded
  | finishNSQ
  deriving DecidableEq, Repr

/-- APTRecorder.deleteBagFromReceivingBucket (src/workers/apt_recorder.go
lines 349-404): with delete_on_success disabled, skip the S3 delete but
still set the deleted-from-receiving timestamp (when the object could be
loaded); otherwise issue the delete, record a delete failure as an error,
and set the timestamp on success. -/
def deleteBagFromReceivingBucket (flags : RecorderFlags) (bucket key : String) :
    List CleanupAction × List String :=
  if flags.deleteOnSuccess = false then
    ((if flags.objLoaded then [CleanupAction.setDeletedFromReceivingTimestamp]
      else []), [])
  else
    ([CleanupAction.deleteFromReceiving bucket key] ++
      (if flags.s3DeleteError ≠ "" then []
       else if flags.objLoaded then
        [CleanupAction.setDeletedFromReceivingTimestamp]
       else []),
     if flags.s3DeleteError ≠ "" then
       ["In cleanup, error deleting S3 item " ++ bucket ++ "/" ++ key ++ ": " ++
         flags.s3DeleteError]
     else [])

/-- APTRecorder.cleanup (src/workers/apt_recorder.go lines 98-135): give
up on fatal errors or exhausted attempts; requeue on record errors; only
otherwise delete the staging files and the receiving-bucket original. -/
def recorderCleanup (flags : RecorderFlags) (bucket key : String) :
    List CleanupAction × List String :=
  let itsTimeToGiveUp := flags.manifestHasFatalErrors ||
    (flags.manifestHasErrors && decide (flags.attemptNumber ≥ flags.maxAttempts))
  if itsTimeToGiveUp then
    ([CleanupAction.finishNSQ, CleanupAction.markFailed], [])
  else if flags.recordResultHasErrors then
    ([CleanupAction.requeue], [])
  else
    let del := deleteBagFromReceivingBucket flags bucket key
    ([CleanupAction.markStartedCleanup, CleanupAction.deleteStagingBag] ++
      (if flags.integrationTestEnv then [] else [CleanupAction.deleteStagingDB]) ++
      del.1 ++ [CleanupAction.markSucceeded, CleanupAction.finishNSQ],
     del.2)

/-! ### The cold-tier restore initiator model
(src/dpn/workers/dpn_glacier_restore_init.go), for C9 -/

/-- RETRIEVAL_OPTION (line 21). -/
def retrievalOptionBulk : String := "Bulk"

/-- DAYS_TO_KEEP_IN_S3 (line 32). -/
def daysToKeepInS3 : Int := 60

/-- HOURS_BETWEEN_CHECKS (line 26). -/
def hoursBetweenChecks : Int := 3

/-- What S3Head.GetRestoreRequestInfo reports. -/
structure RestoreRequestInfo where
  requestInProgress : Bool
  requestIsComplete : Bool
  s3ExpiryDate : Int
  deriving DecidableEq, Repr

/-- The external world the restore initiator consults: the HEAD response,
the restore-request info, the outcome of an issued Restore call, the
clock and the NSQ attempt counters. -/
structure DPNEnv where
  headErrorMessage : String
  restoreInfo : RestoreRequestInfo
  restoreInfoError : Option String
  restoreErrorMessage : String
  restoreRequestAccepted : Bool
  alreadyInActiveTier : Bool
  rejectedServiceUnavailable : Bool
  now : Int
  nsqAttempts : Int
  maxAttempts : Int

/-- The DPNGlacierRestoreState fields the worker reads and writes.
RequestedAt is modelled as a "has been set" boolean; the estimated
deletion date in abstract clock units. -/
structure DPNRestoreState where
  glacierBucket : String
  glacierKey : String
  requestAccepted : Bool
  requestedAtSet : Bool
  isAvailableInS3 : Bool
  estimatedDeletionFromS3 : Int
  errorMessage : String
  errorIsFatal : Bool
  retry : Bool
  status : String
  deriving DecidableEq, Repr

/-- The restore initiator's observable effects. -/
inductive DPNAction
  | headObject (bucket key : String)
  | restoreObject (bucket key tier : String) (days : Int)
  | requeueMinutes (m : Int)
  | finishNSQ
  | enqueueDownload
  deriving DecidableEq, Repr

/-- DPNGlacierRestoreInit.RestoreRequestNeeded (lines 198-247): a HEAD
whose error message contains "Conflict" (HTTP 409) means a restore is
already in progress: record it accepted with the requested-at time and
ask for no new retrieval; otherwise branch on the restore-request info.
Returns ((needed, err), updated state, actions). -/
def restoreRequestNeeded (env : DPNEnv) (st : DPNRestoreState) :
    (Bool × Option String) × DPNRestoreState × List DPNAction :=
  let acts := [DPNAction.headObject st.glacierBucket st.glacierKey]
  if goContains env.headErrorMessage "Conflict" then
    ((false, none),
     { st with requestAccepted := true, requestedAtSet := true }, acts)
  else if env.restoreInfo.requestInProgress then
    ((false, env.restoreInfoError),
     { st with requestAccepted := true, requestedAtSet := true }, acts)
  else if env.restoreInfo.requestIsComplete then
    ((false, env.restoreInfoError),
     { st with
       requestAccepted := true, requestedAtSet := true,
       isAvailableInS3 := true,
       estimatedDeletionFromS3 := env.restoreInfo.s3ExpiryDate }, acts)
  else
    ((true, env.restoreInfoError), st, acts)

/-- DPNGlacierRestoreInit.InitializeRetrieval (lines 249-297): issue the
retrieval request with the Bulk tier and the 60-day retention window,
then record the outcome on the state. -/
def initRetrieval (env : DPNEnv) (st : DPNRestoreState) :
    DPNRestoreState × List DPNAction :=
  let acts := [DPNAction.restoreObject st.glacierBucket st.glacierKey
    retrievalOptionBulk daysToKeepInS3]
  let st1 := if env.restoreErrorMessage ≠ "" then
      { st with errorMessage := "Glacier retrieval request returned an error for "
          ++ st.glacierBucket ++ " at " ++ st.glacierKey ++ ": " ++
          env.restoreErrorMessage }
    else st
  let st2 := { st1 with
    requestAccepted := env.restoreRequestAccepted,
    requestedAtSet := true,
    estimatedDeletionFromS3 := env.now + daysToKeepInS3,
    isAvailableInS3 := env.alreadyInActiveTier }
  let st3 := if env.rejectedServiceUnavailable then
      { st2 with
        errorMessage := "Request to restore " ++ st.glacierBucket ++ "/" ++
          st.glacierKey ++ ": Glacier restore service is temporarily " ++
          "unavailable. Try again later.",
        errorIsFatal := false }
    else st2
  (st3, acts)

/-- DPNGlacierRestoreInit.FinishWithSuccess (lines 138-155): an item
already in S3 goes to the download queue; otherwise requeue for a
re-check after HOURS_BETWEEN_CHECKS hours (in minutes here).  (The
DPNWorkItem note/stage bookkeeping and registry save are elided.) -/
def finishWithSuccess (env : DPNEnv) (st : DPNRestoreState) :
    DPNRestoreState × List DPNAction :=
  if st.isAvailableInS3 then
    ({ st with status := "AvailableInS3" },
     [DPNAction.finishNSQ, DPNAction.enqueueDownload])
  else
    ({ st with retry := true },
     [DPNAction.requeueMinutes (hoursBetweenChecks * 60)])

/-- DPNGlacierRestoreInit.FinishWithError (lines 170-196). -/
def finishWithError (env : DPNEnv) (st : DPNRestoreState) :
    DPNRestoreState × List DPNAction :=
  if st.errorIsFatal then
    ({ st with status := "Failed", retry := false }, [DPNAction.finishNSQ])
  else if env.nsqAttempts > env.maxAttempts then
    ({ st with status := "Failed", retry := false }, [DPNAction.finishNSQ])
  else
    ({ st with retry := true }, [DPNAction.requeueMinutes 1])

/-- One item through RequestRestore (lines 111-121) and Cleanup (lines
123-136): decide whether a retrieval request is needed, maybe issue it,
then finish with success or error. -/
def requestRestoreStep (env : DPNEnv) (st : DPNRestoreState) :
    DPNRestoreState × List DPNAction :=
  let r := restoreRequestNeeded env st
  let afterReq :=
    match r.1.2 with
    | some e =>
      ({ r.2.1 with errorMessage := "Error processing S3 HEAD request for " ++
          r.2.1.glacierKey ++ ": " ++ e }, r.2.2)
    | none =>
      if r.1.1 then
        let ir := initRetrieval env r.2.1
        (ir.1, r.2.2 ++ ir.2)
      else (r.2.1, r.2.2)
  let fin := if afterReq.1.errorMessage ≠ "" then
      finishWithError env afterReq.1
    else
      finishWithSuccess env afterReq.1
  (fin.1, afterReq.2 ++ fin.2)

/-! ### The tar reader model (src/tarfile/reader.go), for C10 -/

/-- What os.Stat reports about a path, as ManifestInfoIsValid uses it. -/
inductive StatResult
  | notExist
  | isDir
  | isFile
  deriving DecidableEq, Repr

/-- The file system as ManifestInfoIsValid consults it: a stat oracle and
filepath.Abs (absOf p = p exactly when p is absolute and clean). -/
structure ReaderFS where
  stat : String → StatResult
  absOf : String → String

/-- The IntellectualObject fields ManifestInfoIsValid reads. -/
structure TIntellectualObject where
  identifier : String
  bagName : String
  institution : String
  ingestTarFilePath : String
  deriving DecidableEq, Repr

/-- The manifest fields Untar's entry check reads: the object (nil
possible) and the Untar work summary. -/
structure TManifest where
  obj : Option TIntellectualObject
  untar : WorkSummary
  deriving DecidableEq, Repr

/-- Reader.ManifestInfoIsValid (src/tarfile/reader.go lines 142-168):
record an error for each missing field, a non-absolute tar path, a
missing tar file or a directory; then return the raw HasErrors() value
(sic — not its negation) together with the updated summary. -/
def manifestInfoIsValid (fs : ReaderFS) (m : TManifest) : Bool × WorkSummary :=
  match m.obj with
  | none =>
    (false, m.untar.addError "IntellectualObject is missing from manifest.")
  | some obj =>
    let s := m.untar
    let s := if obj.identifier = "" then
        s.addError "IntellectualObject has no Identifier." else s
    let s := if obj.bagName = "" then
        s.addError "IntellectualObject has no BagName." else s
    let s := if obj.institution = "" then
        s.addError "IntellectualObject has no Institution." else s
    let s := if obj.ingestTarFilePath = "" then
        s.addError "IntellectualObject is missing IngestTarFilePath."
      else if fs.absOf obj.ingestTarFilePath ≠ obj.ingestTarFilePath then
        s.addError "IntellectualObject has a relative or incorrect IngestTarFilePath."
      else s
    let s := match fs.stat obj.ingestTarFilePath with
      | StatResult.notExist =>
        s.addError ("IngestTarFilePath '" ++ obj.ingestTarFilePath ++
          "' does not exist.")
      | StatResult.isDir =>
        s.addError ("IngestTarFilePath '" ++ obj.ingestTarFilePath ++
          "' is a directory.")
      | StatResult.isFile => s
    (s.hasErrors, s)

/-- The head of Reader.Untar (src/tarfile/reader.go lines 34-39): whether
Untar proceeds past the manifest check to open and read the tar file, and
the summary it leaves behind when it returns early.  (RecordStartOfWork
only touches the attempt counters.) -/
def untarOpensTar (fs : ReaderFS) (m : TManifest) : Bool × WorkSummary :=
  let v := manifestInfoIsValid fs m
  if !v.1 then (false, v.2) else (true, v.2)

/-! ### Concrete fixtures for witnesses and counterexamples (storer) -/

def cfgFix : StorerConfig :=
  { apTrustS3Region := "us-east-1", apTrustGlacierRegion := "us-west-2",
    preservationBucket := "aptrust.preservation.storage",
    replicationBucket := "aptrust.preservation.oregon",
    tarDirectory := "/mnt/apt/data", s3LargeFileSize := 1000000 }

def gfFix : SGenericFile :=
  { identifier := "test.edu/bag/data/file.txt", originalPath := "data/file.txt",
    intellectualObjectIdentifier := "test.edu/bag", fileFormat := "text/plain",
    size := 42, id := 0,
    ingestUUID := "11111111-2222-3333-4444-555555555555",
    ingestMd5 := "md5digest", ingestSha256 := "abc",
    ingestNeedsSave := true, ingestPreviousVersionExists := false,
    ingestStoredAt := false, ingestStorageURL := "",
    ingestReplicatedAt := false, ingestReplicationURL := "", uri := "" }

/-- Registry reports a prior version with the same sha256 whose stored URI
does not end in a UUID; uploads and listings succeed. -/
def envUuidFail : StorerEnv :=
  { checksumList := fun _ => .ok (some { genericFileId := 99, digest := "abc" }),
    genericFileGet := fun _ =>
      .ok { uri := "https://s3.amazonaws.com/b/not-a-uuid" },
    getReadCloser := fun _ => .ok (),
    getFileReader := fun _ => .ok (),
    sendOutcome := fun w _ => { errorMessage := "", location := "https://loc/" ++ w },
    listObjects := fun _ _ _ _ => some 42 }

/-- Registry reports a prior version with the same sha256 and a stored URI
ending in a UUID. -/
def envUuidOk : StorerEnv :=
  { envUuidFail with
    genericFileGet := fun _ =>
      .ok { uri :=
        "https://s3.amazonaws.com/b/99999999-8888-7777-6666-555544443333" } }

/-- Only the primary preservation bucket in the S3 region ever lists the
object (with the declared size); the replication bucket never does. -/
def envDestMissing : StorerEnv :=
  { envUuidFail with
    checksumList := fun _ => .ok none,
    listObjects := fun _ region bucket _ =>
      if region == "us-east-1" && bucket == "aptrust.preservation.storage" then
        some 42
      else none }

/-- The primary already succeeded; only the glacier copy is pending. -/
def oGlacierPending : StoreOutcome :=
  { gf := { gfFix with ingestStoredAt := true, ingestStorageURL := "https://x" },
    summary := {}, actions := [] }

/-- No listing ever shows the object anywhere, every Send reports no
error. -/
def envListNothing : StorerEnv :=
  { envUuidFail with
    checksumList := fun _ => .ok none,
    listObjects := fun _ _ _ _ => none }

/-- A generic file whose computed md5 is empty, so the md5 metadata entry
on the upload is empty. -/
def gfNoMd5 : SGenericFile := { gfFix with ingestMd5 := "" }

/-! ### Concrete fixtures (recorder, restore initiator, tar reader) -/

def flagsHappy : RecorderFlags :=
  { manifestHasFatalErrors := false, manifestHasErrors := false,
    recordResultHasErrors := false, attemptNumber := 1, maxAttempts := 3,
    deleteOnSuccess := true, integrationTestEnv := false, objLoaded := true,
    s3DeleteError := "" }

def flagsNoDelete : RecorderFlags := { flagsHappy with deleteOnSuccess := false }

def envConflict : DPNEnv :=
  { headErrorMessage := "409 Conflict: restore already in progress",
    restoreInfo :=
      { requestInProgress := false, requestIsComplete := false,
        s3ExpiryDate := 0 },
    restoreInfoError := none, restoreErrorMessage := "",
    restoreRequestAccepted := false, alreadyInActiveTier := false,
    rejectedServiceUnavailable := false, now := 1000, nsqAttempts := 1,
    maxAttempts := 5 }

def stFresh : DPNRestoreState :=
  { glacierBucket := "aptrust.dpn.preservation",
    glacierKey := "4930b0ac-0c33-4c41-9b4c-ecea5b5a37a4",
    requestAccepted := false, requestedAtSet := false, isAvailableInS3 := false,
    estimatedDeletionFromS3 := 0, errorMessage := "", errorIsFatal := false,
    retry := true, status := "Started" }

def fsReaderFix : ReaderFS :=
  { stat := fun p => if p == "/mnt/apt/data/test.edu.bag.tar" then
      StatResult.isFile else StatResult.notExist,
    absOf := fun p => p }

def validManifest : TManifest :=
  { obj := some
      { identifier := "test.edu/bag", bagName := "bag",
        institution := "test.edu",
        ingestTarFilePath := "/mnt/apt/data/test.edu.bag.tar" },
    untar := {} }

def invalidManifest : TManifest :=
  { obj := some
      { identifier := "", bagName := "bag", institution := "test.edu",
        ingestTarFilePath := "/mnt/apt/data/test.edu.bag.tar" },
    untar := {} }

def rgfNew : RGenericFile :=
  { identifier := "test.edu/bag/data/new.txt", id := 0, intellectualObjectId := 0,
    ingestNeedsSave := true, ingestPreviousVersionExists := false }

def rgfExisting : RGenericFile :=
  { identifier := "test.edu/bag/data/old.txt", id := 7, intellectualObjectId := 0,
    ingestNeedsSave := true, ingestPreviousVersionExists := true }

/-- A registry whose batch POST partially fails: it returns an error and
the single row it did create. -/
def envRecFix : RecorderEnv :=
  { saveBatch := fun _ =>
      { error := some "Pharos returned 500 after saving some files",
        files := [{ identifier := "test.edu/bag/data/new.txt", id := 123 }] },
    saveSingle := fun gf => .ok { identifier := gf.identifier, id := gf.id } }

/-! ### Theorems for C3 -/

/-- C3, counterexample: the claim says files below 500 MiB get the 5 MiB
default part size, but a 10 MiB upload falls through every guarded branch
of Send and gets the 1 GiB part size. -/
theorem sendPartSize_below500MiB_not_default :
    (10485760 : Int) < 500 * 1024 * 1024 ∧
    sendPartSize 10485760 ≠ 1024 * 1024 * 5 ∧
    sendPartSize 10485760 = 1024 * 1024 * 1024 := by
  refine ⟨by norm_num, ?_, ?_⟩ <;> simp [sendPartSize, minUploadPartSize]

/-- C3, amended: S3Upload.Send selects the part size by this ladder:
5 MiB for files below 5 MiB; 1 GiB for files at or above 5 MiB and below
500 MiB (the unguarded else branch); 128 MiB for files at or above
500 MiB and below 5000 MiB; 512 MiB for files at or above 5000 MiB and
below 50000 MiB; and 1 GiB for files at or above 50000 MiB. -/
theorem sendPartSize_ladder (size : Int) :
    (size < 1024 * 1024 * 5 → sendPartSize size = 1024 * 1024 * 5) ∧
    (1024 * 1024 * 5 ≤ size ∧ size < 500 * 1024 * 1024 →
      sendPartSize size = 1024 * 1024 * 1024) ∧
    (500 * 1024 * 1024 ≤ size ∧ size < 5000 * 1024 * 1024 →
      sendPartSize size = 128 * 1024 * 1024) ∧
    (5000 * 1024 * 1024 ≤ size ∧ size < 50000 * 1024 * 1024 →
      sendPartSize size = 512 * 1024 * 1024) ∧
    (50000 * 1024 * 1024 ≤ size → sendPartSize size = 1024 * 1024 * 1024) := by
  refine ⟨fun h => ?_, fun h => ?_, fun h => ?_, fun h => ?_, fun h => ?_⟩ <;>
    · simp only [sendPartSize, minUploadPartSize]
      split_ifs <;> omega

/-- C3, witness for the amended ladder at concrete sizes. -/
theorem sendPartSize_ladder_witness :
    sendPartSize 1000 = 1024 * 1024 * 5 ∧
    sendPartSize (600 * 1024 * 1024) = 128 * 1024 * 1024 ∧
    sendPartSize (6000 * 1024 * 1024) = 512 * 1024 * 1024 ∧
    sendPartSize (60000 * 1024 * 1024) = 1024 * 1024 * 1024 :=
  ⟨(sendPartSize_ladder 1000).1 (by norm_num),
   (sendPartSize_ladder (600 * 1024 * 1024)).2.2.1 (by norm_num),
   (sendPartSize_ladder (6000 * 1024 * 1024)).2.2.2.1 (by norm_num),
   (sendPartSize_ladder (60000 * 1024 * 1024)).2.2.2.2 (by norm_num)⟩

/-! ### Theorem for C4 -/

/-- C4 (code bug): for a FORBIDDEN tag spec the validator appends the
forbidden-tag violation unconditionally and dereferences `tags[0]`, so on
a bag where the forbidden tag is absent it panics (index out of range on
the empty find result) instead of completing without a violation; and on
a bag where the tag is present it does append the violation. -/
theorem verifyTagSpecs_forbidden_absent_crashes :
    verifyTagSpecs
        [("Contact-Name",
          { presence := Presence.forbidden, emptyOK := true, allowedValues := [] })]
        [] =
      .error ("runtime error: index out of range [0] with length 0 " ++
        "(verifyTagSpecs, tag Contact-Name)") ∧
    verifyTagSpecs
        [("Contact-Name",
          { presence := Presence.forbidden, emptyOK := true, allowedValues := [] })]
        [{ label := "Contact-Name", value := "Bob", sourceFile := "bag-info.txt" }] =
      .ok ["Forbidden tag 'Contact-Name' found in file 'bag-info.txt'."] :=
  ⟨rfl, rfl⟩

/-! ### Theorems for C5 -/

/-- checkMd5 changes only the Md5VerifiedAt flag of the file. -/
theorem checkMd5_fields (gf : VGenericFile) :
    (checkMd5 gf).2.originalPath = gf.originalPath ∧
    (checkMd5 gf).2.ingestManifestSha256 = gf.ingestManifestSha256 ∧
    (checkMd5 gf).2.ingestSha256 = gf.ingestSha256 := by
  by_cases hc : gf.ingestManifestMd5 ≠ "" ∧ gf.ingestManifestMd5 ≠ gf.ingestMd5 <;>
    simp [checkMd5, hc]

/-- The sha256 mismatch message only reads fields checkMd5 preserves. -/
theorem sha256MismatchError_checkMd5 (gf : VGenericFile) :
    sha256MismatchError (checkMd5 gf).2 = sha256MismatchError gf := by
  by_cases hc : gf.ingestManifestMd5 ≠ "" ∧ gf.ingestManifestMd5 ≠ gf.ingestMd5 <;>
    simp [checkMd5, hc, sha256MismatchError]

/-- Every error a file's own digest check produces appears in the
aggregated verifyChecksums error list. -/
theorem checkFileDigests_mem_verifyChecksums (files : List VGenericFile)
    (gf : VGenericFile) (h : gf ∈ files) (e : String)
    (he : e ∈ (checkFileDigests gf).1) : e ∈ (verifyChecksums files).1 := by
  induction files with
  | nil => cases h
  | cons g rest ih =>
    simp only [verifyChecksums, List.mem_append]
    rcases List.mem_cons.mp h with hg | hg
    · exact Or.inl (hg ▸ he)
    · exact Or.inr (ih hg)

/-- C5 (confirmed): for every generic file in the validated list, a
non-empty manifest-claimed digest that differs from the computed digest
puts the exact formatted mismatch message into the validation summary
(Sha256 and Md5 forms); an empty or matching claimed digest adds no error
for that algorithm and sets the corresponding verified-at timestamp. -/
theorem verifyChecksums_digest_check (files : List VGenericFile)
    (gf : VGenericFile) (h : gf ∈ files) :
    ((gf.ingestManifestSha256 ≠ "" ∧ gf.ingestManifestSha256 ≠ gf.ingestSha256) →
       sha256MismatchError gf ∈ (verifyChecksums files).1) ∧
    ((gf.ingestManifestSha256 = "" ∨ gf.ingestManifestSha256 = gf.ingestSha256) →
       (checkSha256 gf).1 = none ∧ (checkSha256 gf).2.ingestSha256VerifiedAt = true) ∧
    ((gf.ingestManifestMd5 ≠ "" ∧ gf.ingestManifestMd5 ≠ gf.ingestMd5) →
       md5MismatchError gf ∈ (verifyChecksums files).1) ∧
    ((gf.ingestManifestMd5 = "" ∨ gf.ingestManifestMd5 = gf.ingestMd5) →
       (checkMd5 gf).1 = none ∧ (checkMd5 gf).2.ingestMd5VerifiedAt = true) := by
  refine ⟨fun hm => ?_, fun hok => ?_, fun hm => ?_, fun hok => ?_⟩
  · apply checkFileDigests_mem_verifyChecksums files gf h
    have hf := checkMd5_fields gf
    have hmsg := sha256MismatchError_checkMd5 gf
    simp only [checkFileDigests, List.mem_append]
    right
    have hm2 : (checkMd5 gf).2.ingestManifestSha256 ≠ "" ∧
        (checkMd5 gf).2.ingestManifestSha256 ≠ (checkMd5 gf).2.ingestSha256 := by
      rw [hf.2.1, hf.2.2]; exact hm
    simp [checkSha256, hm2, hmsg]
  · have hneg : ¬(gf.ingestManifestSha256 ≠ "" ∧
        gf.ingestManifestSha256 ≠ gf.ingestSha256) := by
      rcases hok with h1 | h1 <;> simp [h1]
    simp [checkSha256, hneg]
  · apply checkFileDigests_mem_verifyChecksums files gf h
    simp only [checkFileDigests, List.mem_append]
    left
    simp [checkMd5, hm]
  · have hneg : ¬(gf.ingestManifestMd5 ≠ "" ∧
        gf.ingestManifestMd5 ≠ gf.ingestMd5) := by
      rcases hok with h1 | h1 <;> simp [h1]
    simp [checkMd5, hneg]

/-- C5, witness: one file with a wrong claimed sha256 and a matching
claimed md5. -/
theorem verifyChecksums_digest_check_witness :
    sha256MismatchError
        { originalPath := "data/hello.txt", ingestManifestMd5 := "aa",
          ingestMd5 := "aa", ingestManifestSha256 := "bb", ingestSha256 := "cc",
          ingestMd5VerifiedAt := false, ingestSha256VerifiedAt := false } ∈
      (verifyChecksums
        [{ originalPath := "data/hello.txt", ingestManifestMd5 := "aa",
           ingestMd5 := "aa", ingestManifestSha256 := "bb", ingestSha256 := "cc",
           ingestMd5VerifiedAt := false, ingestSha256VerifiedAt := false }]).1 ∧
    (checkMd5
        { originalPath := "data/hello.txt", ingestManifestMd5 := "aa",
          ingestMd5 := "aa", ingestManifestSha256 := "bb", ingestSha256 := "cc",
          ingestMd5VerifiedAt := false, ingestSha256VerifiedAt := false }).1 = none :=
  ⟨((verifyChecksums_digest_check _ _ (by simp)).1 (by decide)),
   ((verifyChecksums_digest_check
      [{ originalPath := "data/hello.txt", ingestManifestMd5 := "aa",
         ingestMd5 := "aa", ingestManifestSha256 := "bb", ingestSha256 := "cc",
         ingestMd5VerifiedAt := false, ingestSha256VerifiedAt := false }] _
      (by simp)).2.2.2 (by decide)).1⟩

/-! ### Theorems for C6 -/

/-- Folding addError over a list of messages appends them in order and
leaves the fatal flag alone. -/
theorem foldl_addError (errs : List String) (s : WorkSummary) :
    errs.foldl WorkSummary.addError s =
      { errors := s.errors ++ errs, errorIsFatal := s.errorIsFatal } := by
  induction errs generalizing s with
  | nil => simp
  | cons e rest ih => simp [WorkSummary.addError, ih, List.append_assoc]

/-- Closed form of the assertRequiredMetadata key fold. -/
theorem assertRequiredMetadataAux_spec (u : S3UploadModel) (keys : List String)
    (acc : MetadataCheck) :
    assertRequiredMetadataAux u keys acc =
      { errors := acc.errors ++
          (keys.filter (fun k => metadataMissing u k)).map missingKeyError,
        fatal := acc.fatal || keys.any (fun k => metadataMissing u k),
        allKeysPresent :=
          acc.allKeysPresent && !keys.any (fun k => metadataMissing u k) } := by
  induction keys generalizing acc with
  | nil => simp [assertRequiredMetadataAux]
  | cons k rest ih =>
    by_cases hk : metadataMissing u k
    · simp [assertRequiredMetadataAux, hk, ih, List.append_assoc]
    · simp [assertRequiredMetadataAux, hk, ih]

/-- Closed form of assertRequiredMetadata: one error per missing key, the
fatal flag and the go-ahead flag both driven by existence of a missing
key. -/
theorem assertRequiredMetadata_spec (u : S3UploadModel) :
    assertRequiredMetadata u =
      { errors := (requiredMetadataKeys.filter
          (fun k => metadataMissing u k)).map missingKeyError,
        fatal := requiredMetadataKeys.any (fun k => metadataMissing u k),
        allKeysPresent :=
          !requiredMetadataKeys.any (fun k => metadataMissing u k) } := by
  simp [assertRequiredMetadata, assertRequiredMetadataAux_spec]

/-- C6 (confirmed): when any of the five required metadata entries
(institution, bag, bagpath, md5, sha256) on the initialized upload is
absent or empty, doUpload returns before Send: no upload action happens,
the file is untouched, the store result is marked fatal, and the
missing-key error is recorded for every missing key. -/
theorem doUpload_refuses_missing_metadata (cfg : StorerConfig) (env : StorerEnv)
    (o : StoreOutcome) (sendWhere : String) (attempt : Nat) (u : S3UploadModel)
    (hu : (initUploader cfg o.gf sendWhere).uploader = some u)
    (hmiss : requiredMetadataKeys.any (fun k => metadataMissing u k) = true) :
    (doUpload cfg env o sendWhere attempt).actions = o.actions ∧
    (doUpload cfg env o sendWhere attempt).gf = o.gf ∧
    (doUpload cfg env o sendWhere attempt).summary.errorIsFatal = true ∧
    ∀ k, k ∈ requiredMetadataKeys → metadataMissing u k →
      missingKeyError k ∈ (doUpload cfg env o sendWhere attempt).summary.errors := by
  have hd : doUpload cfg env o sendWhere attempt =
      { o with summary :=
          ((assertRequiredMetadata u).errors.foldl WorkSummary.addError
            (if (initUploader cfg o.gf sendWhere).fatal then
              ((initUploader cfg o.gf sendWhere).errors.foldl
                WorkSummary.addError o.summary).setFatal
            else
              (initUploader cfg o.gf sendWhere).errors.foldl
                WorkSummary.addError o.summary)).setFatal } := by
    rw [doUpload, hu]
    simp only [assertRequiredMetadata_spec, hmiss]
    simp [assertRequiredMetadata_spec]
  rw [hd]
  refine ⟨rfl, rfl, by simp [WorkSummary.setFatal], fun k hk hkm => ?_⟩
  simp only [WorkSummary.setFatal, foldl_addError]
  have hmem : missingKeyError k ∈ (assertRequiredMetadata u).errors := by
    rw [assertRequiredMetadata_spec]
    exact List.mem_map_of_mem _ (List.mem_filter.mpr ⟨hk, hkm⟩)
  split <;> simp [List.mem_append, hmem]

/-- C6, witness: a file whose computed md5 is empty is refused with the
md5 missing-key error, fatally, with no upload action. -/
theorem doUpload_refuses_missing_metadata_witness :
    (doUpload cfgFix envUuidOk { gf := gfNoMd5, summary := {}, actions := [] }
      "s3" 1).actions = [] ∧
    (doUpload cfgFix envUuidOk { gf := gfNoMd5, summary := {}, actions := [] }
      "s3" 1).summary.errorIsFatal = true ∧
    missingKeyError "md5" ∈
      (doUpload cfgFix envUuidOk { gf := gfNoMd5, summary := {}, actions := [] }
        "s3" 1).summary.errors := by
  have h := doUpload_refuses_missing_metadata cfgFix envUuidOk
    { gf := gfNoMd5, summary := {}, actions := [] } "s3" 1
    { region := "us-east-1", bucket := "aptrust.preservation.storage",
      key := "11111111-2222-3333-4444-555555555555",
      contentType := "text/plain",
      metadata := [("institution", "test.edu"), ("bag", "test.edu/bag"),
        ("bagpath", "data/file.txt"), ("md5", ""), ("sha256", "abc")] }
    (by decide) (by decide)
  exact ⟨h.1, h.2.2.1, h.2.2.2 "md5" (by decide) (by decide)⟩

/-! ### Invariant lemmas for the storer (shared by C1 and C2) -/

/-- markFileAsStored never touches the UUID or the needs-save flag. -/
theorem markFileAsStored_preserves (gf : SGenericFile) (w loc : String) :
    (markFileAsStored gf w loc).ingestUUID = gf.ingestUUID ∧
    (markFileAsStored gf w loc).ingestNeedsSave = gf.ingestNeedsSave := by
  unfold markFileAsStored
  split_ifs <;> simp

theorem summaryLE_refl (s : WorkSummary) : summaryLE s s :=
  ⟨fun _ he => he, fun h => h⟩

theorem summaryLE_addError {s t : WorkSummary} (h : summaryLE s t) (m : String) :
    summaryLE s (t.addError m) :=
  ⟨fun e he => by simp [WorkSummary.addError, List.mem_append]; exact Or.inl (h.1 e he),
   fun hf => by simp [WorkSummary.addError]; exact h.2 hf⟩

theorem summaryLE_setFatal {s t : WorkSummary} (h : summaryLE s t) :
    summaryLE s t.setFatal :=
  ⟨fun e he => by simp [WorkSummary.setFatal]; exact h.1 e he,
   fun _ => by simp [WorkSummary.setFatal]⟩

theorem summaryLE_foldl {s t : WorkSummary} (h : summaryLE s t)
    (errs : List String) : summaryLE s (errs.foldl WorkSummary.addError t) := by
  rw [foldl_addError]
  exact ⟨fun e he => by simp [List.mem_append]; exact Or.inl (h.1 e he), h.2⟩

/-- One doUpload attempt never changes the file's UUID or needs-save flag,
only extends the store result, and every action it appends is a Send
keyed by the file's current IngestUUID. -/
theorem doUpload_invariants (cfg : StorerConfig) (env : StorerEnv)
    (o : StoreOutcome) (w : String) (n : Nat) :
    (doUpload cfg env o w n).gf.ingestUUID = o.gf.ingestUUID ∧
    (doUpload cfg env o w n).gf.ingestNeedsSave = o.gf.ingestNeedsSave ∧
    summaryLE o.summary (doUpload cfg env o w n).summary ∧
    (∀ a ∈ (doUpload cfg env o w n).actions,
      a ∈ o.actions ∨ a.key = o.gf.ingestUUID) := by
  simp only [doUpload]
  repeat' split
  all_goals
    refine ⟨?_, ?_, ?_, ?_⟩ <;>
      first
        | rfl
        | exact (markFileAsStored_preserves o.gf w _).1
        | exact (markFileAsStored_preserves o.gf w _).2
        | exact fun a ha => Or.inl ha
        | (intro a ha
           rcases List.mem_append.mp ha with hm | hm
           · exact Or.inl hm
           · right
             simp only [List.mem_singleton] at hm
             subst hm
             rfl)
        | ((repeat
              first
                | exact summaryLE_refl _
                | apply summaryLE_addError
                | apply summaryLE_setFatal
                | apply summaryLE_foldl
                | split)
           done)

/-- The attempt loop inherits the doUpload invariants. -/
theorem uploadAttempts_invariants (cfg : StorerConfig) (env : StorerEnv)
    (w : String) :
    ∀ (fuel att : Nat) (o : StoreOutcome),
      (uploadAttempts cfg env w fuel att o).gf.ingestUUID = o.gf.ingestUUID ∧
      (uploadAttempts cfg env w fuel att o).gf.ingestNeedsSave =
        o.gf.ingestNeedsSave ∧
      summaryLE o.summary (uploadAttempts cfg env w fuel att o).summary ∧
      (∀ a ∈ (uploadAttempts cfg env w fuel att o).actions,
        a ∈ o.actions ∨ a.key = o.gf.ingestUUID) := by
  intro fuel
  induction fuel with
  | zero =>
    intro att o
    exact ⟨rfl, rfl, summaryLE_refl _, fun a ha => Or.inl ha⟩
  | succ m ih =>
    intro att o
    have hd := doUpload_invariants cfg env o w att
    simp only [uploadAttempts]
    split
    · exact hd
    · have hr := ih (att + 1) (doUpload cfg env o w att)
      refine ⟨hr.1.trans hd.1, hr.2.1.trans hd.2.1,
        ⟨fun e he => hr.2.2.1.1 e (hd.2.2.1.1 e he),
         fun hf => hr.2.2.1.2 (hd.2.2.1.2 hf)⟩, fun a ha => ?_⟩
      rcases hr.2.2.2 a ha with hm | hm
      · rcases hd.2.2.2 a hm with hm2 | hm2
        · exact Or.inl hm2
        · exact Or.inr hm2
      · exact Or.inr (hm.trans hd.1)

/-- copyToLongTermStorage inherits the loop invariants. -/
theorem copyToLongTermStorage_invariants (cfg : StorerConfig) (env : StorerEnv)
    (o : StoreOutcome) (w : String) :
    (copyToLongTermStorage cfg env o w).gf.ingestUUID = o.gf.ingestUUID ∧
    (copyToLongTermStorage cfg env o w).gf.ingestNeedsSave =
      o.gf.ingestNeedsSave ∧
    summaryLE o.summary (copyToLongTermStorage cfg env o w).summary ∧
    (∀ a ∈ (copyToLongTermStorage cfg env o w).actions,
      a ∈ o.actions ∨ a.key = o.gf.ingestUUID) := by
  simp only [copyToLongTermStorage]
  split
  · exact ⟨rfl, rfl, summaryLE_setFatal (summaryLE_addError (summaryLE_refl _) _),
      fun a ha => Or.inl ha⟩
  · exact uploadAttempts_invariants cfg env w maxUploadAttempts 1 o

/-- saveFilePhase2 inherits the invariants. -/
theorem saveFilePhase2_invariants (cfg : StorerConfig) (env : StorerEnv)
    (o : StoreOutcome) :
    (saveFilePhase2 cfg env o).gf.ingestUUID = o.gf.ingestUUID ∧
    (saveFilePhase2 cfg env o).gf.ingestNeedsSave = o.gf.ingestNeedsSave ∧
    summaryLE o.summary (saveFilePhase2 cfg env o).summary ∧
    (∀ a ∈ (saveFilePhase2 cfg env o).actions,
      a ∈ o.actions ∨ a.key = o.gf.ingestUUID) := by
  simp only [saveFilePhase2]
  split
  · set o1 := if !o.gf.ingestStoredAt ∨ o.gf.ingestStorageURL = "" then
        copyToLongTermStorage cfg env o "s3"
      else o with ho1
    have h1 : o1.gf.ingestUUID = o.gf.ingestUUID ∧
        o1.gf.ingestNeedsSave = o.gf.ingestNeedsSave ∧
        summaryLE o.summary o1.summary ∧
        (∀ a ∈ o1.actions, a ∈ o.actions ∨ a.key = o.gf.ingestUUID) := by
      rw [ho1]
      split
      · exact copyToLongTermStorage_invariants cfg env o "s3"
      · exact ⟨rfl, rfl, summaryLE_refl _, fun a ha => Or.inl ha⟩
    split
    · have h2 := copyToLongTermStorage_invariants cfg env o1 "glacier"
      refine ⟨h2.1.trans h1.1, h2.2.1.trans h1.2.1,
        ⟨fun e he => h2.2.2.1.1 e (h1.2.2.1.1 e he),
         fun hf => h2.2.2.1.2 (h1.2.2.1.2 hf)⟩, fun a ha => ?_⟩
      rcases h2.2.2.2 a ha with hm | hm
      · rcases h1.2.2.2 a hm with hm2 | hm2
        · exact Or.inl hm2
        · exact Or.inr hm2
      · exact Or.inr (hm.trans h1.1)
    · exact h1
  · exact ⟨rfl, rfl, summaryLE_refl _, fun a ha => Or.inl ha⟩

/-! ### Theorems for C1 -/

theorem looksLikeUUID_empty : looksLikeUUID "" = false := by decide

/-- A UUID successfully extracted by getUuidOfExistingFile looks like a
UUID. -/
theorem getUuidOfExistingFile_ok (env : StorerEnv) (i u : String)
    (h : getUuidOfExistingFile env i = .ok u) : looksLikeUUID u = true := by
  unfold getUuidOfExistingFile at h
  split at h
  · cases h
  · split at h
    · cases h
    · rename_i hcond
      injection h with h
      subst h
      simpa using hcond

/-- A UUID successfully extracted by getUuidOfExistingFile is not empty. -/
theorem getUuidOfExistingFile_ok_ne (env : StorerEnv) (i u : String)
    (h : getUuidOfExistingFile env i = .ok u) : u ≠ "" := by
  intro he
  subst he
  have := getUuidOfExistingFile_ok env i "" h
  rw [looksLikeUUID_empty] at this
  cases this

/-- C1, amended: for a savable file whose identifier has a prior version
in the registry: when the prior version's UUID can be extracted from its
storage URL, that UUID replaces the file's IngestUUID (so any upload
overwrites the prior key), and if the prior sha256 equals the newly
computed sha256 the file is marked needs-save = false and nothing is
uploaded; when the UUID cannot be extracted, a fatal error is recorded,
but the file's needs-save flag and IngestUUID are left as they were, so
the file is still uploaded under its fresh ingest UUID if it needed
saving. -/
theorem saveFile_prior_version (cfg : StorerConfig) (env : StorerEnv)
    (gf : SGenericFile) (cs : RChecksum)
    (hsav : hasSavableName gf.originalPath = true)
    (hcs : env.checksumList gf.identifier = .ok (some cs)) :
    (∀ u, getUuidOfExistingFile env gf.identifier = .ok u →
      (saveFile cfg env gf).gf.ingestUUID = u ∧
      (cs.digest = gf.ingestSha256 →
        (saveFile cfg env gf).gf.ingestNeedsSave = false ∧
        (saveFile cfg env gf).actions = []) ∧
      (∀ a ∈ (saveFile cfg env gf).actions, a.key = u)) ∧
    (∀ e, getUuidOfExistingFile env gf.identifier = .error e →
      (saveFile cfg env gf).summary.errorIsFatal = true ∧
      ("Cannot find existing UUID for " ++ gf.identifier ++ ": " ++ e) ∈
        (saveFile cfg env gf).summary.errors ∧
      (saveFile cfg env gf).gf.ingestNeedsSave = gf.ingestNeedsSave ∧
      (saveFile cfg env gf).gf.ingestUUID = gf.ingestUUID ∧
      ∀ a ∈ (saveFile cfg env gf).actions, a.key = gf.ingestUUID) := by
  have hsave : saveFile cfg env gf =
      saveFilePhase2 cfg env (changedSincePreviousVersion env
        { gf := { gf with
            ingestPreviousVersionExists := true, id := cs.genericFileId },
          summary := {}, actions := [] } cs) := by
    rw [saveFile]
    simp [hsav, getExistingSha256, hcs]
  constructor
  · intro u hu
    have hne := getUuidOfExistingFile_ok_ne env gf.identifier u hu
    have hch : changedSincePreviousVersion env
        { gf := { gf with
            ingestPreviousVersionExists := true, id := cs.genericFileId },
          summary := {}, actions := [] } cs =
        (if cs.digest = gf.ingestSha256 then
          { gf := { gf with
              ingestPreviousVersionExists := true, id := cs.genericFileId,
              ingestUUID := u, ingestNeedsSave := false },
            summary := {}, actions := [] }
        else
          { gf := { gf with
              ingestPreviousVersionExists := true, id := cs.genericFileId,
              ingestUUID := u },
            summary := {}, actions := [] }) := by
      simp only [changedSincePreviousVersion]
      simp only [hu]
      simp [hne]
    rw [hsave, hch]
    by_cases hd : cs.digest = gf.ingestSha256
    · rw [if_pos hd]
      refine ⟨?_, fun _ => ⟨?_, ?_⟩, ?_⟩ <;> simp [saveFilePhase2]
    · rw [if_neg hd]
      have hinv := saveFilePhase2_invariants cfg env
        { gf := { gf with
            ingestPreviousVersionExists := true, id := cs.genericFileId,
            ingestUUID := u },
          summary := {}, actions := [] }
      refine ⟨hinv.1, fun hd2 => absurd hd2 hd, fun a ha => ?_⟩
      rcases hinv.2.2.2 a ha with hm | hm
      · simp at hm
      · exact hm
  · intro e he
    have hch : changedSincePreviousVersion env
        { gf := { gf with
            ingestPreviousVersionExists := true, id := cs.genericFileId },
          summary := {}, actions := [] } cs =
        { gf := { gf with
            ingestPreviousVersionExists := true, id := cs.genericFileId },
          summary := (WorkSummary.addError {}
            ("Cannot find existing UUID for " ++ gf.identifier ++ ": " ++ e)).setFatal,
          actions := [] } := by
      simp only [changedSincePreviousVersion]
      simp only [he]
    rw [hsave, hch]
    have hinv := saveFilePhase2_invariants cfg env
      { gf := { gf with
          ingestPreviousVersionExists := true, id := cs.genericFileId },
        summary := (WorkSummary.addError {}
          ("Cannot find existing UUID for " ++ gf.identifier ++ ": " ++ e)).setFatal,
        actions := [] }
    refine ⟨hinv.2.2.1.2 rfl, hinv.2.2.1.1 _ (by simp [WorkSummary.addError,
      WorkSummary.setFatal]), hinv.2.1, hinv.1, fun a ha => ?_⟩
    rcases hinv.2.2.2 a ha with hm | hm
    · simp at hm
    · exact hm

/-- C1, counterexample: the registry reports a prior version of the file
(same sha256) whose storage URL does not end in a UUID.  A fatal error is
recorded as claimed, but the file is not marked needs-save = false and it
IS uploaded — to both destinations — under its fresh ingest UUID. -/
theorem saveFile_uuid_extract_failure_uploads :
    (saveFile cfgFix envUuidFail gfFix).summary.errorIsFatal = true ∧
    ("Cannot find existing UUID for test.edu/bag/data/file.txt: " ++
      "Could not extract UUID from URI https://s3.amazonaws.com/b/not-a-uuid") ∈
      (saveFile cfgFix envUuidFail gfFix).summary.errors ∧
    (saveFile cfgFix envUuidFail gfFix).gf.ingestNeedsSave = true ∧
    (saveFile cfgFix envUuidFail gfFix).actions =
      [UploadAction.send "s3" "aptrust.preservation.storage"
        "11111111-2222-3333-4444-555555555555" 42,
       UploadAction.send "glacier" "aptrust.preservation.oregon"
        "11111111-2222-3333-4444-555555555555" 42] := by
  decide

/-- C1, witness for the amended claim: with an extractable prior UUID and
an unchanged sha256, the file adopts the prior UUID, is marked
needs-save = false and is not uploaded. -/
theorem saveFile_prior_version_witness :
    (saveFile cfgFix envUuidOk gfFix).gf.ingestUUID =
      "99999999-8888-7777-6666-555544443333" ∧
    (saveFile cfgFix envUuidOk gfFix).gf.ingestNeedsSave = false ∧
    (saveFile cfgFix envUuidOk gfFix).actions = [] := by
  have h := (saveFile_prior_version cfgFix envUuidOk gfFix
    { genericFileId := 99, digest := "abc" } (by decide) rfl).1
    "99999999-8888-7777-6666-555544443333" rfl
  exact ⟨h.1, (h.2.1 rfl).1, (h.2.1 rfl).2⟩

/-! ### Theorems for C2 -/

/-- For a recognized destination, initUploader marks nothing fatal. -/
theorem initUploader_valid_fatal (cfg : StorerConfig) (gf : SGenericFile)
    (w : String) (hw : w = "s3" ∨ w = "glacier") :
    (initUploader cfg gf w).fatal = false := by
  rcases hw with rfl | rfl <;> rfl

/-- Marking a file stored for a recognized destination satisfies that
destination's loop break condition. -/
theorem storedForDest_markFileAsStored (gf : SGenericFile) (w loc : String)
    (hw : w = "s3" ∨ w = "glacier") :
    storedForDest (markFileAsStored gf w loc) w = true := by
  rcases hw with rfl | rfl <;> rfl

/-- A doUpload attempt whose preservation-bucket listing does not report
the declared size: the file is unchanged, the send still happens, and the
verification error is recorded exactly when this is the last attempt. -/
theorem doUpload_verify_fail (cfg : StorerConfig) (env : StorerEnv)
    (o : StoreOutcome) (w : String) (n : Nat) (u : S3UploadModel)
    (hu : (initUploader cfg o.gf w).uploader = some u)
    (hie : (initUploader cfg o.gf w).errors = [])
    (hif : (initUploader cfg o.gf w).fatal = false)
    (hmeta : (assertRequiredMetadata u).allKeysPresent = true)
    (hrc : env.getReadCloser o.gf.identifier = .ok ())
    (hsmall : ¬ o.gf.size > cfg.s3LargeFileSize)
    (hsend : (env.sendOutcome w n).errorMessage = "")
    (hfail : getS3FileDetail cfg env n o.gf.ingestUUID ≠ some o.gf.size) :
    doUpload cfg env o w n =
      { gf := o.gf,
        summary := if n = maxUploadAttempts then
            o.summary.addError (attempt15Error cfg env w o.gf)
          else o.summary,
        actions := o.actions ++
          [UploadAction.send w u.bucket o.gf.ingestUUID o.gf.size] } := by
  simp only [doUpload, hu, hie, hif, List.foldl_nil, hmeta, hrc, hsend]
  simp only [Bool.false_eq_true, if_false, Bool.not_true, if_neg hsmall]
  cases hobj : getS3FileDetail cfg env n o.gf.ingestUUID with
  | none =>
    by_cases hn : n = maxUploadAttempts
    · subst hn
      simp [hobj, attempt15Error, hsend]
    · simp [hobj, hn, hsend]
  | some sz =>
    have hsz : sz ≠ o.gf.size := by
      intro h
      exact hfail (by rw [hobj, h])
    by_cases hn : n = maxUploadAttempts
    · subst hn
      simp [hobj, attempt15Error, hsz, hsend]
    · simp [hobj, hn, hsz, hsend]

/-- A doUpload attempt whose Send reports no error and whose
preservation-bucket listing reports the declared size: the file is marked
stored for the destination and no error is recorded. -/
theorem doUpload_verify_ok (cfg : StorerConfig) (env : StorerEnv)
    (o : StoreOutcome) (w : String) (n : Nat) (u : S3UploadModel)
    (hu : (initUploader cfg o.gf w).uploader = some u)
    (hie : (initUploader cfg o.gf w).errors = [])
    (hif : (initUploader cfg o.gf w).fatal = false)
    (hmeta : (assertRequiredMetadata u).allKeysPresent = true)
    (hrc : env.getReadCloser o.gf.identifier = .ok ())
    (hsmall : ¬ o.gf.size > cfg.s3LargeFileSize)
    (hsend : (env.sendOutcome w n).errorMessage = "")
    (hgood : getS3FileDetail cfg env n o.gf.ingestUUID = some o.gf.size) :
    doUpload cfg env o w n =
      { gf := markFileAsStored o.gf w (env.sendOutcome w n).location,
        summary := o.summary,
        actions := o.actions ++
          [UploadAction.send w u.bucket o.gf.ingestUUID o.gf.size] } := by
  simp only [doUpload, hu, hie, hif, List.foldl_nil, hmeta, hrc, hsend]
  simp only [Bool.false_eq_true, if_false, Bool.not_true, if_neg hsmall]
  simp [hgood, hsend]

/-- When every attempt's verification fails, the attempt loop runs to the
final attempt, leaves the file unchanged, and surfaces exactly the final
attempt's verification error. -/
theorem uploadAttempts_all_fail (cfg : StorerConfig) (env : StorerEnv)
    (w : String) (u : S3UploadModel) :
    ∀ (fuel att : Nat) (o : StoreOutcome),
      att + fuel = maxUploadAttempts + 1 → 1 ≤ fuel →
      (initUploader cfg o.gf w).uploader = some u →
      (initUploader cfg o.gf w).errors = [] →
      (initUploader cfg o.gf w).fatal = false →
      (assertRequiredMetadata u).allKeysPresent = true →
      env.getReadCloser o.gf.identifier = .ok () →
      ¬ o.gf.size > cfg.s3LargeFileSize →
      (∀ k, (env.sendOutcome w k).errorMessage = "") →
      (∀ k, att ≤ k → k ≤ maxUploadAttempts →
        getS3FileDetail cfg env k o.gf.ingestUUID ≠ some o.gf.size) →
      storedForDest o.gf w = false →
      (uploadAttempts cfg env w fuel att o).gf = o.gf ∧
      (uploadAttempts cfg env w fuel att o).summary =
        o.summary.addError (attempt15Error cfg env w o.gf) := by
  intro fuel
  induction fuel with
  | zero => omega
  | succ m ih =>
    intro att o hcount hpos hu hie hif hmeta hrc hsmall hsend hfail hns
    by_cases hm : m = 0
    · subst hm
      have hatt : att = maxUploadAttempts := by omega
      subst hatt
      have hstep := doUpload_verify_fail cfg env o w maxUploadAttempts u
        hu hie hif hmeta hrc hsmall (hsend maxUploadAttempts)
        (hfail maxUploadAttempts le_rfl le_rfl)
      simp only [uploadAttempts, hstep, if_pos rfl]
      simp [uploadAttempts, hns]
    · have hatt : att < maxUploadAttempts := by
        simp only [maxUploadAttempts] at hcount ⊢
        omega
      have hstep := doUpload_verify_fail cfg env o w att u
        hu hie hif hmeta hrc hsmall (hsend att)
        (hfail att le_rfl (Nat.le_of_lt hatt))
      rw [if_neg (by omega)] at hstep
      simp only [uploadAttempts, hstep]
      rw [if_neg (by simp [hns])]
      have hrec := ih (att + 1)
        { gf := o.gf, summary := o.summary,
          actions := o.actions ++
            [UploadAction.send w u.bucket o.gf.ingestUUID o.gf.size] }
        (by omega) (by omega) hu hie hif hmeta hrc hsmall hsend
        (fun k hk1 hk2 => hfail k (by omega) hk2) hns
      exact hrec

/-- C2, amended: after each upload doUpload re-lists by the file UUID, but
always against the primary preservation bucket in the S3 region, never
against the replication destination — its outcome is unchanged under any
change to what other buckets would list.  Under a recognized destination,
valid UUID, complete metadata, readable source and errorless sends: if
the preservation-bucket listing never reports the declared size during
the 15 attempts, the destination is never marked stored and exactly the
final attempt's verification error (missing object or size mismatch)
surfaces in the store result; if the first attempt's listing reports the
declared size, the copy stops with the destination marked stored and no
error. -/
theorem copy_verifies_against_preservation_listing :
    (∀ (cfg : StorerConfig) (env : StorerEnv)
       (f : Nat → String → String → String → Option Int)
       (o : StoreOutcome) (w : String) (n : Nat),
      (∀ k p, f k cfg.apTrustS3Region cfg.preservationBucket p =
        env.listObjects k cfg.apTrustS3Region cfg.preservationBucket p) →
      doUpload cfg { env with listObjects := f } o w n =
        doUpload cfg env o w n) ∧
    (∀ (cfg : StorerConfig) (env : StorerEnv) (o : StoreOutcome) (w : String)
       (u : S3UploadModel),
      w = "s3" ∨ w = "glacier" →
      (initUploader cfg o.gf w).uploader = some u →
      (initUploader cfg o.gf w).errors = [] →
      (assertRequiredMetadata u).allKeysPresent = true →
      env.getReadCloser o.gf.identifier = .ok () →
      ¬ o.gf.size > cfg.s3LargeFileSize →
      (∀ k, (env.sendOutcome w k).errorMessage = "") →
      looksLikeUUID o.gf.ingestUUID = true →
      storedForDest o.gf w = false →
      ((∀ k, 1 ≤ k → k ≤ maxUploadAttempts →
          getS3FileDetail cfg env k o.gf.ingestUUID ≠ some o.gf.size) →
        (copyToLongTermStorage cfg env o w).gf = o.gf ∧
        (copyToLongTermStorage cfg env o w).summary =
          o.summary.addError (attempt15Error cfg env w o.gf)) ∧
      (getS3FileDetail cfg env 1 o.gf.ingestUUID = some o.gf.size →
        (copyToLongTermStorage cfg env o w).summary = o.summary ∧
        storedForDest (copyToLongTermStorage cfg env o w).gf w = true)) := by
  constructor
  · intro cfg env f o w n h
    simp only [doUpload, getS3FileDetail, h]
  · intro cfg env o w u hw hu hie hmeta hrc hsmall hsend huuid hns
    have hif := initUploader_valid_fatal cfg o.gf w hw
    constructor
    · intro hfail
      have := uploadAttempts_all_fail cfg env w u maxUploadAttempts 1 o
        (by simp [maxUploadAttempts]) (by simp [maxUploadAttempts])
        hu hie hif hmeta hrc hsmall hsend hfail hns
      simpa [copyToLongTermStorage, huuid] using this
    · intro hgood
      have hstep := doUpload_verify_ok cfg env o w 1 u
        hu hie hif hmeta hrc hsmall (hsend 1) hgood
      have hstop := storedForDest_markFileAsStored o.gf w
        (env.sendOutcome w 1).location hw
      simp only [copyToLongTermStorage, huuid, Bool.not_true, if_false]
      simp only [maxUploadAttempts, uploadAttempts, hstep]
      simp [hstop]

/-- C2, counterexample: a glacier upload whose object never appears in the
replication destination is nevertheless verified as stored with no error,
because the re-listing is issued against the primary preservation bucket,
not the destination. -/
theorem copy_glacier_skips_destination_listing :
    (copyToLongTermStorage cfgFix envDestMissing oGlacierPending
      "glacier").gf.ingestReplicatedAt = true ∧
    (copyToLongTermStorage cfgFix envDestMissing oGlacierPending
      "glacier").summary.errors = [] ∧
    envDestMissing.listObjects 1 cfgFix.apTrustGlacierRegion
      cfgFix.replicationBucket oGlacierPending.gf.ingestUUID = none := by
  decide

/-- C2, witness for the amended claim: when no listing ever shows the
object, fifteen glacier attempts end with exactly the final missing-object
error and the file not marked replicated. -/
theorem copy_verifies_against_preservation_listing_witness :
    (copyToLongTermStorage cfgFix envListNothing oGlacierPending
      "glacier").summary.errors =
      [s3ReturnedNothingError "glacier" oGlacierPending.gf] ∧
    (copyToLongTermStorage cfgFix envListNothing oGlacierPending
      "glacier").gf.ingestReplicatedAt = false := by
  have h := (copy_verifies_against_preservation_listing.2 cfgFix envListNothing
    oGlacierPending "glacier"
    { region := "us-west-2", bucket := "aptrust.preservation.oregon",
      key := "11111111-2222-3333-4444-555555555555",
      contentType := "text/plain",
      metadata := [("institution", "test.edu"), ("bag", "test.edu/bag"),
        ("bagpath", "data/file.txt"), ("md5", "md5digest"), ("sha256", "abc")] }
    (Or.inr rfl) rfl rfl (by decide) rfl (by decide) (fun k => rfl) (by decide)
    rfl).1 (fun k _ _ h => by
      simp [getS3FileDetail, envListNothing, envUuidFail] at h)
  refine ⟨?_, ?_⟩
  · rw [h.2]
    rfl
  · rw [h.1]
    rfl

/-! ### Theorems for C7 -/

/-- C7 (confirmed): the record worker issues the receiving-bucket delete
only on the branch with no fatal errors and no record-stage errors (and
with delete_on_success enabled); with delete_on_success disabled on the
success branch, the delete is skipped while the deleted-from-receiving
timestamp is still set (when the staging object loaded). -/
theorem recorderCleanup_delete_safety :
    (∀ (flags : RecorderFlags) (bucket key b k : String),
      CleanupAction.deleteFromReceiving b k ∈ (recorderCleanup flags bucket key).1 →
      flags.manifestHasFatalErrors = false ∧
      flags.recordResultHasErrors = false ∧
      flags.deleteOnSuccess = true) ∧
    (∀ (flags : RecorderFlags) (bucket key : String),
      flags.manifestHasFatalErrors = false →
      flags.recordResultHasErrors = false →
      (flags.manifestHasErrors = false ∨ flags.attemptNumber < flags.maxAttempts) →
      flags.deleteOnSuccess = false →
      flags.objLoaded = true →
      (∀ b k, CleanupAction.deleteFromReceiving b k ∉
        (recorderCleanup flags bucket key).1) ∧
      CleanupAction.setDeletedFromReceivingTimestamp ∈
        (recorderCleanup flags bucket key).1) := by
  constructor
  · intro flags bucket key b k hmem
    simp only [recorderCleanup] at hmem
    split at hmem
    · simp at hmem
    · split at hmem
      · simp at hmem
      · rename_i hgu hrr
        have hf : flags.manifestHasFatalErrors = false := by
          revert hgu
          cases flags.manifestHasFatalErrors <;> simp
        have hr : flags.recordResultHasErrors = false := by
          revert hrr
          cases flags.recordResultHasErrors <;> simp
        refine ⟨hf, hr, ?_⟩
        by_cases hdel : flags.deleteOnSuccess = false
        · exfalso
          simp only [deleteBagFromReceivingBucket, hdel, if_true, if_pos rfl] at hmem
          split at hmem <;> split at hmem <;> simp_all
        · revert hdel
          cases flags.deleteOnSuccess <;> simp
  · intro flags bucket key hf hr hthird hdel hobj
    have hg : (flags.manifestHasFatalErrors ||
        (flags.manifestHasErrors &&
          decide (flags.attemptNumber ≥ flags.maxAttempts))) = false := by
      rcases hthird with he | ha
      · simp [hf, he]
      · simp [hf, decide_eq_false (not_le.mpr ha)]
    refine ⟨fun b k => ?_, ?_⟩ <;>
      simp [recorderCleanup, hg, hr, deleteBagFromReceivingBucket, hdel, hobj]

/-- C7, witness: on the success branch with delete_on_success disabled,
no receiving-bucket delete is issued and the timestamp is set. -/
theorem recorderCleanup_delete_safety_witness :
    CleanupAction.deleteFromReceiving "aptrust.receiving.test.edu" "bag.tar" ∉
      (recorderCleanup flagsNoDelete "aptrust.receiving.test.edu" "bag.tar").1 ∧
    CleanupAction.setDeletedFromReceivingTimestamp ∈
      (recorderCleanup flagsNoDelete "aptrust.receiving.test.edu" "bag.tar").1 := by
  have h := recorderCleanup_delete_safety.2 flagsNoDelete
    "aptrust.receiving.test.edu" "bag.tar" rfl rfl (Or.inl rfl) rfl rfl
  exact ⟨h.1 "aptrust.receiving.test.edu" "bag.tar", h.2⟩

/-! ### Theorems for C9 -/

/-- RestoreRequestNeeded keeps the bucket and key and emits exactly the
HEAD action. -/
theorem restoreRequestNeeded_state (env : DPNEnv) (st : DPNRestoreState) :
    (restoreRequestNeeded env st).2.1.glacierBucket = st.glacierBucket ∧
    (restoreRequestNeeded env st).2.1.glacierKey = st.glacierKey ∧
    (restoreRequestNeeded env st).2.2 =
      [DPNAction.headObject st.glacierBucket st.glacierKey] := by
  unfold restoreRequestNeeded
  repeat' split
  all_goals exact ⟨rfl, rfl, rfl⟩

/-- InitializeRetrieval emits exactly one restore request, on its state's
bucket and key, with the Bulk tier and 60-day window. -/
theorem initRetrieval_actions (env : DPNEnv) (st : DPNRestoreState) :
    (initRetrieval env st).2 =
      [DPNAction.restoreObject st.glacierBucket st.glacierKey
        retrievalOptionBulk daysToKeepInS3] := by
  unfold initRetrieval
  repeat' split
  all_goals rfl

theorem finishWithSuccess_actions (env : DPNEnv) (st : DPNRestoreState)
    (a : DPNAction) (h : a ∈ (finishWithSuccess env st).2) :
    a = DPNAction.finishNSQ ∨ a = DPNAction.enqueueDownload ∨
    a = DPNAction.requeueMinutes (hoursBetweenChecks * 60) := by
  unfold finishWithSuccess at h
  split at h <;> simp_all <;> tauto

theorem finishWithError_actions (env : DPNEnv) (st : DPNRestoreState)
    (a : DPNAction) (h : a ∈ (finishWithError env st).2) :
    a = DPNAction.finishNSQ ∨ a = DPNAction.requeueMinutes 1 := by
  unfold finishWithError at h
  repeat' split at h
  all_goals simp_all

/-- Every action the restore-initiator pipeline can emit, by shape. -/
theorem requestRestoreStep_action_shapes (env : DPNEnv) (st : DPNRestoreState)
    (a : DPNAction) (ha : a ∈ (requestRestoreStep env st).2) :
    a = DPNAction.headObject st.glacierBucket st.glacierKey ∨
    a = DPNAction.restoreObject st.glacierBucket st.glacierKey
      retrievalOptionBulk daysToKeepInS3 ∨
    a = DPNAction.requeueMinutes (hoursBetweenChecks * 60) ∨
    a = DPNAction.requeueMinutes 1 ∨
    a = DPNAction.finishNSQ ∨
    a = DPNAction.enqueueDownload := by
  obtain ⟨hb, hk, hacts⟩ := restoreRequestNeeded_state env st
  simp only [requestRestoreStep] at ha
  split at ha
  · rcases List.mem_append.mp ha with h | h
    · rw [hacts] at h
      simp at h
    -- error path: still may requeue or finish
      subst h
      tauto
    · split at h
      · rcases finishWithError_actions _ _ _ h with h2 | h2 <;> subst h2 <;> tauto
      · rcases finishWithSuccess_actions _ _ _ h with h2 | h2 | h2 <;>
          subst h2 <;> tauto
  · split at ha
    · rcases List.mem_append.mp ha with h | h
      · rcases List.mem_append.mp h with h2 | h2
        · rw [hacts] at h2
          simp at h2
          subst h2
          tauto
        · rw [initRetrieval_actions, hb, hk] at h2
          simp at h2
          subst h2
          tauto
      · split at h
        · rcases finishWithError_actions _ _ _ h with h2 | h2 <;> subst h2 <;> tauto
        · rcases finishWithSuccess_actions _ _ _ h with h2 | h2 | h2 <;>
            subst h2 <;> tauto
    · rcases List.mem_append.mp ha with h | h
      · rw [hacts] at h
        simp at h
        subst h
        tauto
      · split at h
        · rcases finishWithError_actions _ _ _ h with h2 | h2 <;> subst h2 <;> tauto
        · rcases finishWithSuccess_actions _ _ _ h with h2 | h2 | h2 <;>
            subst h2 <;> tauto

/-- C9 (confirmed): a HEAD answered with a 409 conflict records the
restore request as already accepted with the requested-at time set,
issues no new retrieval request, and requeues the item for a re-check
after 3 hours; and every retrieval request the initiator does issue uses
the Bulk tier with the 60-day retention window. -/
theorem glacierRestore_conflict_and_bulk :
    (∀ (env : DPNEnv) (st : DPNRestoreState),
      goContains env.headErrorMessage "Conflict" = true →
      st.isAvailableInS3 = false →
      st.errorMessage = "" →
      (requestRestoreStep env st).1.requestAccepted = true ∧
      (requestRestoreStep env st).1.requestedAtSet = true ∧
      (∀ b k t d, DPNAction.restoreObject b k t d ∉ (requestRestoreStep env st).2) ∧
      DPNAction.requeueMinutes (hoursBetweenChecks * 60) ∈
        (requestRestoreStep env st).2) ∧
    (∀ (env : DPNEnv) (st : DPNRestoreState) (b k t : String) (d : Int),
      DPNAction.restoreObject b k t d ∈ (requestRestoreStep env st).2 →
      t = retrievalOptionBulk ∧ d = daysToKeepInS3) := by
  constructor
  · intro env st hconf hav herr
    have hstep : requestRestoreStep env st =
        ({ st with requestAccepted := true, requestedAtSet := true, retry := true },
         [DPNAction.headObject st.glacierBucket st.glacierKey,
          DPNAction.requeueMinutes (hoursBetweenChecks * 60)]) := by
      simp [requestRestoreStep, restoreRequestNeeded, hconf, herr,
        finishWithSuccess, hav]
    rw [hstep]
    refine ⟨rfl, rfl, fun b k t d => ?_, by simp⟩
    simp
  · intro env st b k t d hmem
    rcases requestRestoreStep_action_shapes env st _ hmem with
      h | h | h | h | h | h <;> cases h
    exact ⟨rfl, rfl⟩

/-- C9, witness: the conflict fixture is accepted, requeued after 180
minutes, and triggers no retrieval request. -/
theorem glacierRestore_conflict_witness :
    (requestRestoreStep envConflict stFresh).1.requestAccepted = true ∧
    DPNAction.requeueMinutes 180 ∈ (requestRestoreStep envConflict stFresh).2 ∧
    DPNAction.restoreObject "aptrust.dpn.preservation"
      "4930b0ac-0c33-4c41-9b4c-ecea5b5a37a4" "Bulk" 60 ∉
      (requestRestoreStep envConflict stFresh).2 := by
  have h := glacierRestore_conflict_and_bulk.1 envConflict stFresh
    (by decide) rfl rfl
  exact ⟨h.1, by simpa using h.2.2.2, h.2.2.1 _ _ _ _⟩

/-! ### Theorem for C10 -/

/-- C10 (code bug): ManifestInfoIsValid returns HasErrors() rather than
its negation, so Untar refuses to open the tar for a fully valid manifest
(recording no error at all), while a manifest with a missing Identifier
makes the check return true and Untar proceeds to read the tar. -/
theorem untar_validity_check_inverted :
    (untarOpensTar fsReaderFix validManifest).1 = false ∧
    (untarOpensTar fsReaderFix validManifest).2.errors = [] ∧
    (untarOpensTar fsReaderFix invalidManifest).1 = true ∧
    (untarOpensTar fsReaderFix invalidManifest).2.errors =
      ["IntellectualObject has no Identifier."] := by
  decide

/-! ### Theorems for C8 -/

theorem withObjId_identifier (objId : Int) (gf : RGenericFile) :
    (withObjId objId gf).identifier = gf.identifier := rfl

/-- The partition fold is the three claim-side filters. -/
theorem partitionFold_spec (objId : Int) (batch : List RGenericFile) :
    ∀ acc : BatchPartition,
      batch.foldl (partitionStep objId) acc =
        { newFiles := acc.newFiles ++
            (batch.filter isNewFile).map (withObjId objId),
          existingFiles := acc.existingFiles ++
            (batch.filter isExistingFile).map (withObjId objId),
          errors := acc.errors ++
            (batch.filter isMissingIdFile).map
              (fun gf => missingIdError (withObjId objId gf)) } := by
  induction batch with
  | nil => intro acc; simp
  | cons gf rest ih =>
    intro acc
    simp only [List.foldl_cons, ih]
    by_cases h1 : gf.ingestNeedsSave = true
    · by_cases h2 : gf.ingestPreviousVersionExists = true
      · by_cases h3 : gf.id > 0
        · simp [partitionStep, withObjId, isNewFile, isExistingFile,
            isMissingIdFile, h1, h2, h3, List.append_assoc]
        · simp [partitionStep, withObjId, isNewFile, isExistingFile,
            isMissingIdFile, h1, h2, h3, List.append_assoc]
      · by_cases h3 : gf.id = 0
        · simp [partitionStep, withObjId, isNewFile, isExistingFile,
            isMissingIdFile, h1, h2, h3, List.append_assoc]
        · simp [partitionStep, withObjId, isNewFile, isExistingFile,
            isMissingIdFile, h1, h2, h3, List.append_assoc]
    · simp [partitionStep, withObjId, isNewFile, isExistingFile,
        isMissingIdFile, h1]

theorem partitionBatch_spec (objId : Int) (batch : List RGenericFile) :
    partitionBatch objId batch =
      { newFiles := (batch.filter isNewFile).map (withObjId objId),
        existingFiles := (batch.filter isExistingFile).map (withObjId objId),
        errors := (batch.filter isMissingIdFile).map
          (fun gf => missingIdError (withObjId objId gf)) } := by
  simp [partitionBatch, partitionFold_spec]

theorem updateFold_trace (env : RecorderEnv) (files : List RGenericFile) :
    ∀ acc : List RecAction × List String,
      (files.foldl (updateStep env) acc).1 =
        acc.1 ++ files.map (fun gf => RecAction.putFile gf.identifier) := by
  induction files with
  | nil => intro acc; simp
  | cons gf rest ih =>
    intro acc
    simp only [List.foldl_cons]
    cases h : env.saveSingle gf <;>
      simp [updateStep, h, ih, List.append_assoc]

/-- updateGenericFiles PUTs each existing file individually, in order. -/
theorem updateGenericFiles_trace (env : RecorderEnv)
    (files : List RGenericFile) :
    (updateGenericFiles env files).1 =
      files.map (fun gf => RecAction.putFile gf.identifier) := by
  simp [updateGenericFiles, updateFold_trace]

/-- The registry traffic of one batch: one batch POST naming exactly the
batch's new files (when there are any), then one PUT per existing file. -/
theorem processBatch_trace (env : RecorderEnv) (objId : Int)
    (batch : List RGenericFile) :
    (processBatch env objId batch).1 =
      (if (batch.filter isNewFile).isEmpty then [] else
        [RecAction.batchPost
          ((batch.filter isNewFile).map (fun gf => gf.identifier))]) ++
      (batch.filter isExistingFile).map
        (fun gf => RecAction.putFile gf.identifier) := by
  simp only [processBatch, partitionBatch_spec, createGenericFiles,
    updateGenericFiles_trace]
  have hm : ((batch.filter isNewFile).map (withObjId objId)).isEmpty =
      (batch.filter isNewFile).isEmpty := by
    cases batch.filter isNewFile <;> rfl
  rw [hm]
  by_cases h : (batch.filter isNewFile).isEmpty
  · rw [List.isEmpty_iff] at h
    simp [h, withObjId]
  · rw [if_neg h, if_neg h]
    simp [List.map_map, Function.comp, withObjId]

theorem isEmpty_false_of_mem {α : Type} {l : List α} {x : α} (h : x ∈ l) :
    l.isEmpty = false := by
  cases l
  · cases h
  · rfl

/-- Membership facts about the whole batch loop: every batch POST carries
at most 100 identifiers, all of new files; every PUT is of an existing
file; every existing file gets its PUT; every new file appears in some
batch POST. -/
theorem saveAllGenericFiles_mem (env : RecorderEnv) (objId : Int) :
    ∀ files : List RGenericFile,
      (∀ ids, RecAction.batchPost ids ∈ (saveAllGenericFiles env objId files).1 →
        ids.length ≤ genericFileBatchSize ∧
        ∀ i ∈ ids, ∃ gf, gf ∈ files ∧ gf.identifier = i ∧ isNewFile gf = true) ∧
      (∀ i, RecAction.putFile i ∈ (saveAllGenericFiles env objId files).1 →
        ∃ gf, gf ∈ files ∧ gf.identifier = i ∧ isExistingFile gf = true) ∧
      (∀ gf, gf ∈ files → isExistingFile gf = true →
        RecAction.putFile gf.identifier ∈ (saveAllGenericFiles env objId files).1) ∧
      (∀ gf, gf ∈ files → isNewFile gf = true →
        ∃ ids, RecAction.batchPost ids ∈ (saveAllGenericFiles env objId files).1 ∧
          gf.identifier ∈ ids) := by
  have main : ∀ (n : Nat) (files : List RGenericFile), files.length ≤ n →
      (∀ ids, RecAction.batchPost ids ∈ (saveAllGenericFiles env objId files).1 →
        ids.length ≤ genericFileBatchSize ∧
        ∀ i ∈ ids, ∃ gf, gf ∈ files ∧ gf.identifier = i ∧ isNewFile gf = true) ∧
      (∀ i, RecAction.putFile i ∈ (saveAllGenericFiles env objId files).1 →
        ∃ gf, gf ∈ files ∧ gf.identifier = i ∧ isExistingFile gf = true) ∧
      (∀ gf, gf ∈ files → isExistingFile gf = true →
        RecAction.putFile gf.identifier ∈ (saveAllGenericFiles env objId files).1) ∧
      (∀ gf, gf ∈ files → isNewFile gf = true →
        ∃ ids, RecAction.batchPost ids ∈ (saveAllGenericFiles env objId files).1 ∧
          gf.identifier ∈ ids) := by
    intro n
    induction n with
    | zero =>
      intro files hlen
      have hfe : files = [] := List.length_eq_zero.mp (Nat.le_zero.mp hlen)
      subst hfe
      rw [saveAllGenericFiles]
      simp [processBatch_trace, genericFileBatchSize]
    | succ m ih =>
      intro files hlen
      rw [saveAllGenericFiles]
      split
      · rename_i hshort
        have hlen2 : files.length ≤ genericFileBatchSize := by
          simp only [List.length_take] at hshort
          omega
        have htake : files.take genericFileBatchSize = files :=
          List.take_of_length_le hlen2
        rw [htake]
        rw [processBatch_trace]
        refine ⟨fun ids hmem => ?_, fun i hmem => ?_, fun gf hgf hex => ?_,
          fun gf hgf hnew => ?_⟩
        · rcases List.mem_append.mp hmem with h | h
          · split at h
            · simp at h
            · simp only [List.mem_singleton] at h
              injection h with h
              subst h
              constructor
              · calc ((files.filter isNewFile).map
                    (fun gf => gf.identifier)).length
                    = (files.filter isNewFile).length := List.length_map _ _
                  _ ≤ files.length := List.length_filter_le _ _
                  _ ≤ genericFileBatchSize := hlen2
              · intro i hi
                rcases List.mem_map.mp hi with ⟨gf, hgf, rfl⟩
                exact ⟨gf, List.mem_of_mem_filter hgf, rfl,
                  (List.mem_filter.mp hgf).2⟩
          · exfalso
            rcases List.mem_map.mp h with ⟨gf, _, heq⟩
            cases heq
        · rcases List.mem_append.mp hmem with h | h
          · exfalso
            split at h
            · simp at h
            · simp only [List.mem_singleton] at h
              cases h
          · rcases List.mem_map.mp h with ⟨gf, hgf, heq⟩
            injection heq with heq
            exact ⟨gf, List.mem_of_mem_filter hgf, heq,
              (List.mem_filter.mp hgf).2⟩
        · apply List.mem_append_right
          exact List.mem_map_of_mem _ (List.mem_filter.mpr ⟨hgf, hex⟩)
        · refine ⟨(files.filter isNewFile).map (fun gf => gf.identifier), ?_, ?_⟩
          · apply List.mem_append_left
            have hne : (files.filter isNewFile).isEmpty = false :=
              isEmpty_false_of_mem (List.mem_filter.mpr ⟨hgf, hnew⟩)
            simp [hne]
          · exact List.mem_map_of_mem _ (List.mem_filter.mpr ⟨hgf, hnew⟩)
      · rename_i hlong
        have hrest := ih (files.drop genericFileBatchSize) (by
          simp only [List.length_take, not_lt, le_min_iff,
            genericFileBatchSize] at hlong
          simp only [List.length_drop, genericFileBatchSize]
          omega)
        rw [processBatch_trace]
        have htksub : ∀ gf, gf ∈ files.take genericFileBatchSize → gf ∈ files :=
          fun gf h => List.take_subset _ _ h
        have hdpsub : ∀ gf, gf ∈ files.drop genericFileBatchSize → gf ∈ files :=
          fun gf h => List.drop_subset _ _ h
        have htklen : (files.take genericFileBatchSize).length ≤
            genericFileBatchSize := by
          simp [List.length_take]
        refine ⟨fun ids hmem => ?_, fun i hmem => ?_, fun gf hgf hex => ?_,
          fun gf hgf hnew => ?_⟩
        · rcases List.mem_append.mp hmem with h | h
          · rcases List.mem_append.mp h with h2 | h2
            · split at h2
              · simp at h2
              · simp only [List.mem_singleton] at h2
                injection h2 with h2
                subst h2
                constructor
                · calc (((files.take genericFileBatchSize).filter
                      isNewFile).map (fun gf => gf.identifier)).length
                      = ((files.take genericFileBatchSize).filter
                          isNewFile).length := List.length_map _ _
                    _ ≤ (files.take genericFileBatchSize).length :=
                        List.length_filter_le _ _
                    _ ≤ genericFileBatchSize := htklen
                · intro i hi
                  rcases List.mem_map.mp hi with ⟨gf, hgf, rfl⟩
                  exact ⟨gf, htksub gf (List.mem_of_mem_filter hgf), rfl,
                    (List.mem_filter.mp hgf).2⟩
            · exfalso
              rcases List.mem_map.mp h2 with ⟨gf, _, heq⟩
              cases heq
          · obtain ⟨h1, _, _, _⟩ := hrest
            obtain ⟨hl, hin⟩ := h1 ids h
            exact ⟨hl, fun i hi => by
              obtain ⟨gf, hgf, hid, hn⟩ := hin i hi
              exact ⟨gf, hdpsub gf hgf, hid, hn⟩⟩
        · rcases List.mem_append.mp hmem with h | h
          · rcases List.mem_append.mp h with h2 | h2
            · exfalso
              split at h2
              · simp at h2
              · simp only [List.mem_singleton] at h2
                cases h2
            · rcases List.mem_map.mp h2 with ⟨gf, hgf, heq⟩
              injection heq with heq
              exact ⟨gf, htksub gf (List.mem_of_mem_filter hgf), heq,
                (List.mem_filter.mp hgf).2⟩
          · obtain ⟨_, h2, _, _⟩ := hrest
            obtain ⟨gf, hgf, hid, hex⟩ := h2 i h
            exact ⟨gf, hdpsub gf hgf, hid, hex⟩
        · rcases List.mem_append.mp
            ((List.take_append_drop genericFileBatchSize files) ▸ hgf) with
            h | h
          · apply List.mem_append_left
            apply List.mem_append_right
            exact List.mem_map_of_mem _ (List.mem_filter.mpr ⟨h, hex⟩)
          · apply List.mem_append_right
            obtain ⟨_, _, h3, _⟩ := hrest
            exact h3 gf h hex
        · rcases List.mem_append.mp
            ((List.take_append_drop genericFileBatchSize files) ▸ hgf) with
            h | h
          · refine ⟨((files.take genericFileBatchSize).filter isNewFile).map
              (fun gf => gf.identifier), ?_, ?_⟩
            · apply List.mem_append_left
              apply List.mem_append_left
              have hne : ((files.take genericFileBatchSize).filter
                  isNewFile).isEmpty = false :=
                isEmpty_false_of_mem (List.mem_filter.mpr ⟨h, hnew⟩)
              simp [hne]
            · exact List.mem_map_of_mem _ (List.mem_filter.mpr ⟨h, hnew⟩)
          · obtain ⟨_, _, _, h4⟩ := hrest
            obtain ⟨ids, hids, hid⟩ := h4 gf h hnew
            exact ⟨ids, List.mem_append_right _ hids, hid⟩
  intro files
  exact main files.length files le_rfl

/-- A file untouched by every row of the response survives the merge loop
unchanged. -/
theorem mergeResponse_untouched (resp : List SavedFile) :
    ∀ (files : List RGenericFile) (x : RGenericFile), x ∈ files →
      (∀ s ∈ resp, x.identifier ≠ s.identifier) →
      x ∈ mergeResponse files resp := by
  induction resp with
  | nil =>
    intro files x hx _
    simpa [mergeResponse] using hx
  | cons s rest ih =>
    intro files x hx hno
    have hx2 : x ∈ files.map (fun gf =>
        if gf.identifier == s.identifier then mergeAttributes gf s else gf) := by
      have hkeep : (if x.identifier == s.identifier then mergeAttributes x s
          else x) = x := by
        simp [hno s (List.mem_cons_self s rest)]
      exact hkeep ▸ List.mem_map_of_mem _ hx
    exact ih _ x hx2 (fun t ht => hno t (List.mem_cons_of_mem s ht))

theorem mergeAttributes_comp (gf : RGenericFile) (s t : SavedFile) :
    mergeAttributes (mergeAttributes gf t) s = mergeAttributes gf s := rfl

/-- When the response rows carry distinct identifiers, every row's
registry id is merged into the matching in-memory file. -/
theorem mergeResponse_merges (resp : List SavedFile) :
    ∀ (files : List RGenericFile) (gf : RGenericFile) (s : SavedFile),
      (resp.map (fun t => t.identifier)).Nodup →
      gf ∈ files → s ∈ resp → s.identifier = gf.identifier →
      mergeAttributes gf s ∈ mergeResponse files resp := by
  induction resp with
  | nil =>
    intro _ _ _ _ _ hs _
    cases hs
  | cons t rest ih =>
    intro files gf s hnd hgf hs hid
    rw [List.map_cons, List.nodup_cons] at hnd
    have hnd2 := hnd
    rcases List.mem_cons.mp hs with rfl | hs2
    · have hupd : mergeAttributes gf s ∈ files.map (fun g =>
          if g.identifier == s.identifier then mergeAttributes g s else g) := by
        have : (if gf.identifier == s.identifier then mergeAttributes gf s
            else gf) = mergeAttributes gf s := by
          simp [hid]
        exact this ▸ List.mem_map_of_mem _ hgf
      apply mergeResponse_untouched rest _ _ hupd
      intro s2 hs2 heq
      have : (mergeAttributes gf s).identifier = gf.identifier := rfl
      rw [this, ← hid] at heq
      exact hnd2.1 (heq ▸ List.mem_map_of_mem _ hs2)
    · have hgf2 : (if gf.identifier == t.identifier then mergeAttributes gf t
          else gf) ∈ files.map (fun g =>
            if g.identifier == t.identifier then mergeAttributes g t else g) :=
        List.mem_map_of_mem _ hgf
      have hres := ih _ _ s hnd2.2 hgf2 hs2 (by
        split <;> simp [mergeAttributes, hid])
      have hcomp : mergeAttributes (if gf.identifier == t.identifier then
          mergeAttributes gf t else gf) s = mergeAttributes gf s := by
        split <;> rfl
      rw [hcomp] at hres
      exact hres

/-- Despite a batch-POST error, the merge happens: the recorded actions
and the merged files depend only on the rows the registry returned, not
on the response error. -/
theorem createGenericFiles_ignores_batch_error (env1 env2 : RecorderEnv)
    (files : List RGenericFile)
    (h : (env1.saveBatch files).files = (env2.saveBatch files).files) :
    (createGenericFiles env1 files).1 = (createGenericFiles env2 files).1 ∧
    (createGenericFiles env1 files).2.2 = (createGenericFiles env2 files).2.2 := by
  by_cases he : files.isEmpty <;> simp [createGenericFiles, he, h]

theorem createGenericFiles_merges (env : RecorderEnv)
    (files : List RGenericFile) (gf : RGenericFile) (s : SavedFile)
    (hnd : ((env.saveBatch files).files.map (fun t => t.identifier)).Nodup)
    (hgf : gf ∈ files) (hs : s ∈ (env.saveBatch files).files)
    (hid : s.identifier = gf.identifier) :
    mergeAttributes gf s ∈ (createGenericFiles env files).2.2 := by
  have hne : files.isEmpty = false := by
    cases files
    · cases hgf
    · rfl
  simp only [createGenericFiles, hne, Bool.false_eq_true, if_false]
  exact mergeResponse_merges _ _ _ _ hnd hgf hs hid

/-- C8 (confirmed): the record worker iterates generic files in batches
of 100; each batch is partitioned into new files (id zero, no prior
version) sent in one batch POST and existing files (prior version found,
id known) updated with individual PUTs; and the registry-assigned ids in
the response are merged back into the in-memory files even when the
batch POST partially failed (returned an error). -/
theorem recorder_batching :
    (∀ (env : RecorderEnv) (objId : Int) (batch : List RGenericFile),
      (processBatch env objId batch).1 =
        (if (batch.filter isNewFile).isEmpty then [] else
          [RecAction.batchPost
            ((batch.filter isNewFile).map (fun gf => gf.identifier))]) ++
        (batch.filter isExistingFile).map
          (fun gf => RecAction.putFile gf.identifier)) ∧
    (∀ (env : RecorderEnv) (objId : Int) (files : List RGenericFile) (ids : List String),
      RecAction.batchPost ids ∈ (saveAllGenericFiles env objId files).1 →
      ids.length ≤ genericFileBatchSize ∧
      ∀ i ∈ ids, ∃ gf, gf ∈ files ∧ gf.identifier = i ∧ isNewFile gf = true) ∧
    (∀ (env : RecorderEnv) (objId : Int) (files : List RGenericFile) (i : String),
      RecAction.putFile i ∈ (saveAllGenericFiles env objId files).1 →
      ∃ gf, gf ∈ files ∧ gf.identifier = i ∧ isExistingFile gf = true) ∧
    (∀ (env : RecorderEnv) (objId : Int) (files : List RGenericFile)
       (gf : RGenericFile),
      gf ∈ files → isExistingFile gf = true →
      RecAction.putFile gf.identifier ∈ (saveAllGenericFiles env objId files).1) ∧
    (∀ (env : RecorderEnv) (objId : Int) (files : List RGenericFile)
       (gf : RGenericFile),
      gf ∈ files → isNewFile gf = true →
      ∃ ids, RecAction.batchPost ids ∈ (saveAllGenericFiles env objId files).1 ∧
        gf.identifier ∈ ids) ∧
    (∀ (env1 env2 : RecorderEnv) (files : List RGenericFile),
      (env1.saveBatch files).files = (env2.saveBatch files).files →
      (createGenericFiles env1 files).1 = (createGenericFiles env2 files).1 ∧
      (createGenericFiles env1 files).2.2 = (createGenericFiles env2 files).2.2) ∧
    (∀ (env : RecorderEnv) (files : List RGenericFile) (gf : RGenericFile)
       (s : SavedFile),
      ((env.saveBatch files).files.map (fun t => t.identifier)).Nodup →
      gf ∈ files → s ∈ (env.saveBatch files).files →
      s.identifier = gf.identifier →
      mergeAttributes gf s ∈ (createGenericFiles env files).2.2) :=
  ⟨fun env objId batch => processBatch_trace env objId batch,
   fun env objId files ids h =>
     (saveAllGenericFiles_mem env objId files).1 ids h,
   fun env objId files i h =>
     (saveAllGenericFiles_mem env objId files).2.1 i h,
   fun env objId files gf h1 h2 =>
     (saveAllGenericFiles_mem env objId files).2.2.1 gf h1 h2,
   fun env objId files gf h1 h2 =>
     (saveAllGenericFiles_mem env objId files).2.2.2 gf h1 h2,
   fun env1 env2 files h =>
     createGenericFiles_ignores_batch_error env1 env2 files h,
   fun env files gf s h1 h2 h3 h4 =>
     createGenericFiles_merges env files gf s h1 h2 h3 h4⟩

/-- C8, witness: with one new and one existing file and a registry whose
batch POST fails after creating the new file's row, the existing file is
PUT individually and the returned id is still merged into the new file. -/
theorem recorder_batching_witness :
    RecAction.putFile "test.edu/bag/data/old.txt" ∈
      (saveAllGenericFiles envRecFix 55 [rgfNew, rgfExisting]).1 ∧
    mergeAttributes (withObjId 55 rgfNew)
        { identifier := "test.edu/bag/data/new.txt", id := 123 } ∈
      (createGenericFiles envRecFix [withObjId 55 rgfNew]).2.2 := by
  constructor
  · exact recorder_batching.2.2.2.1 envRecFix 55 [rgfNew, rgfExisting]
      rgfExisting (by simp) (by decide)
  · exact recorder_batching.2.2.2.2.2.2 envRecFix [withObjId 55 rgfNew]
      (withObjId 55 rgfNew)
      { identifier := "test.edu/bag/data/new.txt", id := 123 }
      (by decide) (by simp) (by decide) rfl

end Exchange
